import Mathlib

set_option maxHeartbeats 1000000

/-!
Verification of the Logz.io detection-as-code repository: a shallow
embedding of the JSON rule documents, the two normalizers
(`clean_rule_json` in deploy_security_rules.py and `clean_rule` in
Rule Exporter/clean-rules.py), the schema validator
(Rule Exporter/validate-rules.py), and the deployment reconciliation
logic (search, update, create fallback, batch summary) of
deploy_security_rules.py.

Python dictionaries are modelled as association lists with unique keys
(Python cannot hold duplicate keys; deletion removes every matching
entry so that the model agrees with Python on every representable
value).  Python numbers are modelled as rationals; Python's
`isinstance(x, (int, float))` accepts booleans, which the model
reproduces (`pyIsNumber`).  Operations that can raise in Python
(`in` on a non-iterable, subscripting, `.get` on a non-dict, `len`,
slicing, `.lower`) return `Except PyErr`.
-/

/-- A JSON value as loaded by Python's `json.load`.  JSON `null` and
Python `None` coincide (`json.load` maps null to None). -/
inductive JVal : Type where
  | null : JVal
  | bool : Bool → JVal
  | num : Rat → JVal
  | str : String → JVal
  | arr : List JVal → JVal
  | obj : List (String × JVal) → JVal
deriving Repr

/-- A raised Python exception, by class and message. -/
inductive PyErr : Type where
  | typeError (msg : String)
  | attributeError (msg : String)
  | keyError (msg : String)
  | valueError (msg : String)
deriving Repr, DecidableEq

/-- The message of an exception, as Python's `str(e)` renders it. -/
def pyErrMsg : PyErr → String
  | .typeError m => m
  | .attributeError m => m
  | .keyError m => m
  | .valueError m => m

/-- The Python type name of a value, for error messages. -/
def pyType : JVal → String
  | .null => "NoneType"
  | .bool _ => "bool"
  | .num q => if q.den = 1 then "int" else "float"
  | .str _ => "str"
  | .arr _ => "list"
  | .obj _ => "dict"

/-- Python truthiness: `bool(v)`. -/
def pyTruthy : JVal → Bool
  | .null => false
  | .bool b => b
  | .num q => q != 0
  | .str s => s ≠ ""
  | .arr xs => !xs.isEmpty
  | .obj kvs => !kvs.isEmpty

/-- `isinstance(v, str)`. -/
def JVal.isStr : JVal → Bool
  | .str _ => true
  | _ => false

/-- `isinstance(v, bool)`. -/
def JVal.isBool : JVal → Bool
  | .bool _ => true
  | _ => false

/-- `isinstance(v, list)`. -/
def JVal.isArr : JVal → Bool
  | .arr _ => true
  | _ => false

/-- `isinstance(v, dict)`. -/
def JVal.isObj : JVal → Bool
  | .obj _ => true
  | _ => false

/-- `isinstance(v, (int, float))`.  Python's `bool` is a subclass of
`int`, so booleans pass this check. -/
def pyIsNumber : JVal → Bool
  | .num _ => true
  | .bool _ => true
  | _ => false

/-- Strict "is a number" in the sense of the specification's data model,
where boolean and number are distinct scalar kinds. -/
def JVal.isNum : JVal → Bool
  | .num _ => true
  | _ => false

/-- `v <= 0` for a value that passed `pyIsNumber` (True is 1, False is 0). -/
def pyNumLe0 : JVal → Bool
  | .num q => q ≤ 0
  | .bool b => !b
  | _ => false

/-- First-occurrence lookup in an association list (Python dict access). -/
def alookup (k : String) : List (String × JVal) → Option JVal
  | [] => none
  | (k', v) :: rest => if k' = k then some v else alookup k rest

/-- Key membership in an association list (`k in d` for a dict). -/
def hasKeyL (k : String) (l : List (String × JVal)) : Bool :=
  (alookup k l).isSome

/-- Removal of every entry with the given key (`del d[k]`; a Python dict
holds a key at most once, on which this agrees with deletion). -/
def eraseAllL (k : String) : List (String × JVal) → List (String × JVal)
  | [] => []
  | (k', v) :: rest => if k' = k then eraseAllL k rest else (k', v) :: eraseAllL k rest

/-- In-place overwrite of the value at a key (`d[k] = v`), keeping order. -/
def setAllL (k : String) (v : JVal) : List (String × JVal) → List (String × JVal)
  | [] => []
  | (k', w) :: rest => (k', if k' = k then v else w) :: setAllL k v rest

/-- Lookup of a key inside a value when it is a mapping, `none` otherwise. -/
def objLookup (k : String) : JVal → Option JVal
  | .obj kvs => alookup k kvs
  | _ => none

mutual

/-- Python equality `==` restricted to the shapes this repository
compares: scalars compare across bool/number as Python does, strings
compare as strings, sequences pointwise; all other cross-type
comparisons are `False`.  (Mappings are compared entrywise in order;
the code under verification never compares two mappings.) -/
def pyEq : JVal → JVal → Bool
  | .null, .null => true
  | .bool a, .bool b => a == b
  | .bool a, .num q => (if a then (1 : Rat) else 0) == q
  | .num q, .bool b => q == (if b then (1 : Rat) else 0)
  | .num a, .num b => a == b
  | .str a, .str b => a == b
  | .arr xs, .arr ys => pyEqList xs ys
  | .obj xs, .obj ys => pyEqPairs xs ys
  | _, _ => false

/-- Pointwise Python equality of two sequences. -/
def pyEqList : List JVal → List JVal → Bool
  | [], [] => true
  | x :: xs, y :: ys => pyEq x y && pyEqList xs ys
  | _, _ => false

/-- Entrywise Python equality of two mappings (in entry order). -/
def pyEqPairs : List (String × JVal) → List (String × JVal) → Bool
  | [], [] => true
  | (k, v) :: xs, (k', v') :: ys => k == k' && pyEq v v' && pyEqPairs xs ys
  | _, _ => false

end

/-- Substring test on character lists (`needle in haystack` for strings). -/
def charListHasSub (needle : List Char) : List Char → Bool
  | [] => needle.isEmpty
  | c :: rest => needle.isPrefixOf (c :: rest) || charListHasSub needle rest

/-- `needle in hay` for two strings. -/
def strIn (needle hay : String) : Bool :=
  charListHasSub needle.data hay.data

/-- The Python membership test `k in v` for a string `k`: key membership
for a dict, element membership for a list, substring for a string; on a
number, boolean or None it raises TypeError. -/
def pyInStr (k : String) : JVal → Except PyErr Bool
  | .str s => .ok (strIn k s)
  | .arr xs => .ok (xs.any (fun x => pyEq x (.str k)))
  | .obj kvs => .ok (hasKeyL k kvs)
  | v => .error (.typeError ("argument of type '" ++ pyType v ++ "' is not iterable"))

/-- Subscripting `v[k]` with a string key: raises KeyError on a dict
without the key and TypeError on any non-dict. -/
def pyGetItemStr (v : JVal) (k : String) : Except PyErr JVal :=
  match v with
  | .obj kvs =>
      match alookup k kvs with
      | some w => .ok w
      | none => .error (.keyError k)
  | .str _ => .error (.typeError "string indices must be integers")
  | .arr _ => .error (.typeError "list indices must be integers or slices, not str")
  | w => .error (.typeError ("'" ++ pyType w ++ "' object is not subscriptable"))

/-- `v.get(k)` as an `Option`: AttributeError when `v` is not a dict. -/
def pyGetOpt (v : JVal) (k : String) : Except PyErr (Option JVal) :=
  match v with
  | .obj kvs => .ok (alookup k kvs)
  | w => .error (.attributeError ("'" ++ pyType w ++ "' object has no attribute 'get'"))

/-- `v.get(k, default)`. -/
def pyGetD (v : JVal) (k : String) (default : JVal) : Except PyErr JVal := do
  let g ← pyGetOpt v k
  pure (g.getD default)

/-- `del v[k]`, returning the value after deletion; TypeError on non-dicts. -/
def pyDelItemStr (v : JVal) (k : String) : Except PyErr JVal :=
  match v with
  | .obj kvs =>
      if hasKeyL k kvs then .ok (.obj (eraseAllL k kvs)) else .error (.keyError k)
  | .str _ => .error (.typeError "'str' object does not support item deletion")
  | .arr _ => .error (.typeError "list indices must be integers or slices, not str")
  | w => .error (.typeError ("'" ++ pyType w ++ "' object does not support item deletion"))

/-- `len(v)`: TypeError on a number, boolean or None. -/
def pyLen (v : JVal) : Except PyErr Nat :=
  match v with
  | .str s => .ok s.length
  | .arr xs => .ok xs.length
  | .obj kvs => .ok kvs.length
  | w => .error (.typeError ("object of type '" ++ pyType w ++ "' has no len()"))

/-- `v[:50]` succeeds on strings and lists only (its value is unused by
the code paths modelled here beyond raising). -/
def pySliceCheck (v : JVal) : Except PyErr Unit :=
  match v with
  | .str _ => .ok ()
  | .arr _ => .ok ()
  | w => .error (.typeError ("'" ++ pyType w ++ "' object is not subscriptable"))

/-- `v.lower()`: AttributeError on a non-string. -/
def pyLower (v : JVal) : Except PyErr String :=
  match v with
  | .str s => .ok s.toLower
  | w => .error (.attributeError ("'" ++ pyType w ++ "' object has no attribute 'lower'"))

mutual

/-- `repr(v)`, approximating Python's rendering (rationals with
denominator 1 print as integers; braces are written escaped). -/
def pyRepr : JVal → String
  | .null => "None"
  | .bool b => if b then "True" else "False"
  | .num q => if q.den = 1 then toString q.num else toString q
  | .str s => "'" ++ s ++ "'"
  | .arr xs => "[" ++ pyReprList xs ++ "]"
  | .obj kvs => "\x7b" ++ pyReprPairs kvs ++ "\x7d"

/-- Comma-joined reprs of sequence elements. -/
def pyReprList : List JVal → String
  | [] => ""
  | [x] => pyRepr x
  | x :: y :: rest => pyRepr x ++ ", " ++ pyReprList (y :: rest)

/-- Comma-joined reprs of mapping entries. -/
def pyReprPairs : List (String × JVal) → String
  | [] => ""
  | [(k, v)] => "'" ++ k ++ "': " ++ pyRepr v
  | (k, v) :: p :: rest => "'" ++ k ++ "': " ++ pyRepr v ++ ", " ++ pyReprPairs (p :: rest)

end

/-- `str(v)` as used in f-strings: like `repr` except that a top-level
string renders without quotes. -/
def pyStr : JVal → String
  | .str s => s
  | v => pyRepr v

/-! ## Normalizers -/

/-- The read-only fields removed at the document root, in the order both
scripts list them. -/
def readonlyFields : List String := ["id", "createdAt", "createdBy", "updatedAt", "updatedBy"]

/-- Removal of every read-only field from a root mapping. -/
def eraseReadonly (kvs : List (String × JVal)) : List (String × JVal) :=
  readonlyFields.foldl (fun acc f => eraseAllL f acc) kvs

/-- `v[k] = w` inside a value known to be a mapping. -/
def setInObj (v : JVal) (k : String) (w : JVal) : JVal :=
  match v with
  | .obj kvs => .obj (setAllL k w kvs)
  | other => other

/-- `SecurityRuleDeployer.clean_rule_json` (deploy_security_rules.py,
lines 31-58): deep-copies the document, pops the read-only root fields,
and deletes `output.recipients.notificationEndpointIds` when present.
Because of the deep copy the input itself is never changed, so the model
is a pure function on the document.  Non-mapping inputs raise as the
Python does (`.pop(field, None)` on a list or missing `pop`). -/
def cleanRuleJson : JVal → Except PyErr JVal
  | .obj kvs =>
    let c0 := eraseReadonly kvs
    match alookup "output" c0 with
    | none => .ok (.obj c0)
    | some o =>
      match pyInStr "recipients" o with
      | .error e => .error e
      | .ok false => .ok (.obj c0)
      | .ok true =>
        match pyGetItemStr o "recipients" with
        | .error e => .error e
        | .ok r =>
          match pyInStr "notificationEndpointIds" r with
          | .error e => .error e
          | .ok false => .ok (.obj c0)
          | .ok true =>
            match pyDelItemStr r "notificationEndpointIds" with
            | .error e => .error e
            | .ok r' => .ok (.obj (setAllL "output" (setInObj o "recipients" r') c0))
  | .arr _ => .error (.typeError "pop expected at most 1 argument, got 2")
  | v => .error (.attributeError ("'" ++ pyType v ++ "' object has no attribute 'pop'"))

/-- One step of the subComponents loop of `clean_rule`: for the single
subcomponent read-only field `id`, `if 'id' in component: del component['id']`. -/
def stripComponentId (x : JVal) : Except PyErr JVal :=
  match pyInStr "id" x with
  | .error e => .error e
  | .ok true => pyDelItemStr x "id"
  | .ok false => .ok x

/-- The subComponents loop applied to each element of a sequence. -/
def stripAllComponents : List JVal → Except PyErr (List JVal)
  | [] => .ok []
  | x :: xs =>
    match stripComponentId x with
    | .error e => .error e
    | .ok x' =>
      match stripAllComponents xs with
      | .error e => .error e
      | .ok xs' => .ok (x' :: xs')

/-- `for component in sc: …` over an arbitrary subComponents value:
iterating a mapping yields its keys and a key containing `id` as a
substring makes the deletion raise; iterating a string yields one-char
strings, `'id' in c` is always false; a number is not iterable. -/
def subCompIter (sc : JVal) : Except PyErr JVal :=
  match sc with
  | .arr xs =>
    match stripAllComponents xs with
    | .error e => .error e
    | .ok xs' => .ok (.arr xs')
  | .obj kvs =>
      if kvs.any (fun kv => strIn "id" kv.1) then
        .error (.typeError "'str' object does not support item deletion")
      else .ok (.obj kvs)
  | .str s => .ok (.str s)
  | v => .error (.typeError ("'" ++ pyType v ++ "' object is not iterable"))

/-- The `output`/`recipients` step of `clean_rule`: evaluates
`'output' in cleaned and 'recipients' in cleaned['output']` and, when
true, binds `cleaned['output']['recipients']`; the bound value is unused
because the deletion of `notificationEndpointIds` is commented out. -/
def recipientsProbe (c0 : List (String × JVal)) : Except PyErr JVal :=
  match alookup "output" c0 with
  | none => .ok .null
  | some o =>
    match pyInStr "recipients" o with
    | .error e => .error e
    | .ok true => pyGetItemStr o "recipients"
    | .ok false => .ok .null

/-- `clean_rule` (Rule Exporter/clean-rules.py, lines 27-51).  It takes a
*shallow* copy (`rule.copy()`), deletes the read-only root fields from
the copy, binds `output['recipients']` when present (the deletion of
`notificationEndpointIds` is commented out in the source), and then
deletes `id` from every element of `subComponents` — those element
mappings are shared with the input, so the input mutates too.  The model
returns `(result, input after the call)`. -/
def cleanRule : JVal → Except PyErr (JVal × JVal)
  | .obj kvs =>
    let c0 := eraseReadonly kvs
    match recipientsProbe c0 with
    | .error e => .error e
    | .ok _ =>
      match alookup "subComponents" c0 with
      | none => .ok (.obj c0, .obj kvs)
      | some sc =>
        match subCompIter sc with
        | .error e => .error e
        | .ok sc' =>
            .ok (.obj (setAllL "subComponents" sc' c0), .obj (setAllL "subComponents" sc' kvs))
  | .arr xs =>
      if readonlyFields.any (fun f => xs.any (fun x => pyEq x (.str f))) then
        .error (.typeError "list indices must be integers or slices, not str")
      else if xs.any (fun x => pyEq x (.str "output")) then
        .error (.typeError "list indices must be integers or slices, not str")
      else if xs.any (fun x => pyEq x (.str "subComponents")) then
        .error (.typeError "list indices must be integers or slices, not str")
      else .ok (.arr xs, .arr xs)
  | v => .error (.attributeError ("'" ++ pyType v ++ "' object has no attribute 'copy'"))

/-! ### Claim-side predicates about normalized documents -/

/-- No server-owned field at the document root. -/
def noRootServerFields (d : JVal) : Bool :=
  readonlyFields.all (fun f => (objLookup f d).isNone)

/-- No `id` key in any mapping element of the `subComponents` sequence. -/
def subIdsAbsent (d : JVal) : Bool :=
  match objLookup "subComponents" d with
  | some (.arr xs) => xs.all (fun x => (objLookup "id" x).isNone)
  | _ => true

/-- No `notificationEndpointIds` key under `output.recipients`. -/
def notifIdsAbsent (d : JVal) : Bool :=
  match objLookup "output" d with
  | some o =>
      match objLookup "recipients" o with
      | some r => (objLookup "notificationEndpointIds" r).isNone
      | none => true
  | none => true

/-- The property claimed of every normalized document. -/
def fullyNormalized (d : JVal) : Bool :=
  noRootServerFields d && subIdsAbsent d && notifIdsAbsent d

/-! ### Association-list lemmas -/

theorem alookup_eraseAllL_self (k : String) (l : List (String × JVal)) :
    alookup k (eraseAllL k l) = none := by
  induction l with
  | nil => rfl
  | cons p rest ih =>
    obtain ⟨k', v⟩ := p
    by_cases h : k' = k
    · simpa [eraseAllL, h] using ih
    · simpa [eraseAllL, h, alookup] using ih

theorem alookup_eraseAllL_ne (k' k : String) (h : k' ≠ k) (l : List (String × JVal)) :
    alookup k (eraseAllL k' l) = alookup k l := by
  induction l with
  | nil => rfl
  | cons p rest ih =>
    obtain ⟨k'', v⟩ := p
    by_cases h2 : k'' = k'
    · subst h2
      simp [eraseAllL, alookup, h, ih]
    · by_cases h3 : k'' = k <;> simp [eraseAllL, alookup, h2, h3, ih, Ne.symm h]

theorem eraseAllL_of_none (k : String) (l : List (String × JVal))
    (h : alookup k l = none) : eraseAllL k l = l := by
  induction l with
  | nil => rfl
  | cons p rest ih =>
    obtain ⟨k', v⟩ := p
    by_cases h2 : k' = k
    · simp [alookup, h2] at h
    · simp [alookup, h2] at h
      simp [eraseAllL, h2, ih h]

theorem alookup_setAllL_self (k : String) (v : JVal) (l : List (String × JVal)) :
    alookup k (setAllL k v l) = (alookup k l).map (fun _ => v) := by
  induction l with
  | nil => rfl
  | cons p rest ih =>
    obtain ⟨k', w⟩ := p
    by_cases h : k' = k <;> simp [setAllL, alookup, h, ih]

theorem alookup_setAllL_ne (k' k : String) (h : k' ≠ k) (v : JVal)
    (l : List (String × JVal)) :
    alookup k (setAllL k' v l) = alookup k l := by
  induction l with
  | nil => rfl
  | cons p rest ih =>
    obtain ⟨k'', w⟩ := p
    by_cases h2 : k'' = k <;> simp [setAllL, alookup, h2, ih, Ne.symm h]

theorem eraseReadonly_eq (kvs : List (String × JVal)) :
    eraseReadonly kvs =
      eraseAllL "updatedBy" (eraseAllL "updatedAt" (eraseAllL "createdBy"
        (eraseAllL "createdAt" (eraseAllL "id" kvs)))) := rfl

theorem alookup_eraseReadonly_ro :
    ∀ f ∈ readonlyFields, ∀ kvs, alookup f (eraseReadonly kvs) = none := by
  intro f hf kvs
  rw [eraseReadonly_eq]
  fin_cases hf
  · rw [alookup_eraseAllL_ne _ _ (by decide), alookup_eraseAllL_ne _ _ (by decide),
        alookup_eraseAllL_ne _ _ (by decide), alookup_eraseAllL_ne _ _ (by decide),
        alookup_eraseAllL_self]
  · rw [alookup_eraseAllL_ne _ _ (by decide), alookup_eraseAllL_ne _ _ (by decide),
        alookup_eraseAllL_ne _ _ (by decide), alookup_eraseAllL_self]
  · rw [alookup_eraseAllL_ne _ _ (by decide), alookup_eraseAllL_ne _ _ (by decide),
        alookup_eraseAllL_self]
  · rw [alookup_eraseAllL_ne _ _ (by decide), alookup_eraseAllL_self]
  · rw [alookup_eraseAllL_self]

theorem alookup_eraseReadonly_ne (k : String) (h : k ∉ readonlyFields)
    (kvs : List (String × JVal)) :
    alookup k (eraseReadonly kvs) = alookup k kvs := by
  simp [readonlyFields] at h
  obtain ⟨h1, h2, h3, h4, h5⟩ := h
  rw [eraseReadonly_eq,
      alookup_eraseAllL_ne _ _ (Ne.symm h5), alookup_eraseAllL_ne _ _ (Ne.symm h4),
      alookup_eraseAllL_ne _ _ (Ne.symm h3), alookup_eraseAllL_ne _ _ (Ne.symm h2),
      alookup_eraseAllL_ne _ _ (Ne.symm h1)]

theorem eraseReadonly_idem (kvs : List (String × JVal)) :
    eraseReadonly (eraseReadonly kvs) = eraseReadonly kvs := by
  conv_lhs => rw [eraseReadonly_eq]
  rw [eraseAllL_of_none "id" (eraseReadonly kvs)
        (alookup_eraseReadonly_ro "id" (by decide) kvs),
      eraseAllL_of_none "createdAt" (eraseReadonly kvs)
        (alookup_eraseReadonly_ro "createdAt" (by decide) kvs),
      eraseAllL_of_none "createdBy" (eraseReadonly kvs)
        (alookup_eraseReadonly_ro "createdBy" (by decide) kvs),
      eraseAllL_of_none "updatedAt" (eraseReadonly kvs)
        (alookup_eraseReadonly_ro "updatedAt" (by decide) kvs),
      eraseAllL_of_none "updatedBy" (eraseReadonly kvs)
        (alookup_eraseReadonly_ro "updatedBy" (by decide) kvs)]

theorem eraseReadonly_of_none (kvs : List (String × JVal))
    (h : ∀ f ∈ readonlyFields, alookup f kvs = none) :
    eraseReadonly kvs = kvs := by
  rw [eraseReadonly_eq,
      eraseAllL_of_none "id" kvs (h "id" (by decide)),
      eraseAllL_of_none "createdAt" kvs (h "createdAt" (by decide)),
      eraseAllL_of_none "createdBy" kvs (h "createdBy" (by decide)),
      eraseAllL_of_none "updatedAt" kvs (h "updatedAt" (by decide)),
      eraseAllL_of_none "updatedBy" kvs (h "updatedBy" (by decide))]

theorem hasKeyL_setAllL_self (k : String) (v : JVal) (l : List (String × JVal)) :
    hasKeyL k (setAllL k v l) = hasKeyL k l := by
  simp [hasKeyL, alookup_setAllL_self]

/-- C9 helper: normalization (`clean_rule_json`) maps an already-clean
document to itself. -/
theorem cleanRuleJson_idem_aux (d d' : JVal) (h : cleanRuleJson d = .ok d') :
    cleanRuleJson d' = .ok d' := by
  cases d with
  | null => simp [cleanRuleJson] at h
  | bool b => simp [cleanRuleJson] at h
  | num q => simp [cleanRuleJson] at h
  | str s => simp [cleanRuleJson] at h
  | arr xs => simp [cleanRuleJson] at h
  | obj kvs =>
    simp only [cleanRuleJson] at h
    split at h
    next ho =>
      injection h with h
      subst h
      simp [cleanRuleJson, eraseReadonly_idem, ho]
    next o ho =>
      split at h
      next e he => exact absurd h (by simp)
      next hr =>
        injection h with h
        subst h
        simp [cleanRuleJson, eraseReadonly_idem, ho, hr]
      next hr =>
        split at h
        next e hg => exact absurd h (by simp)
        next r hg =>
          split at h
          next e hn => exact absurd h (by simp)
          next hn =>
            injection h with h
            subst h
            simp [cleanRuleJson, eraseReadonly_idem, ho, hr, hg, hn]
          next hn =>
            split at h
            next e hd => exact absurd h (by simp)
            next r' hd =>
              injection h with h
              subst h
              cases o with
              | null => simp [pyGetItemStr] at hg
              | bool b => simp [pyGetItemStr] at hg
              | num q => simp [pyGetItemStr] at hg
              | str s => simp [pyGetItemStr] at hg
              | arr l => simp [pyGetItemStr] at hg
              | obj okvs =>
                have hor : alookup "recipients" okvs = some r := by
                  simp only [pyGetItemStr] at hg
                  split at hg
                  next w hw =>
                    injection hg with hg
                    rw [← hg]; exact hw
                  next hw => exact absurd hg (by simp)
                cases r with
                | null => simp [pyDelItemStr] at hd
                | bool b => simp [pyDelItemStr] at hd
                | num q => simp [pyDelItemStr] at hd
                | str s => simp [pyDelItemStr] at hd
                | arr l => simp [pyDelItemStr] at hd
                | obj rkvs =>
                  simp only [pyDelItemStr] at hd
                  split at hd
                  next hk =>
                    injection hd with hd
                    subst hd
                    have hER : eraseReadonly (setAllL "output"
                        (setInObj (.obj okvs) "recipients"
                          (.obj (eraseAllL "notificationEndpointIds" rkvs)))
                        (eraseReadonly kvs)) =
                        setAllL "output"
                          (setInObj (.obj okvs) "recipients"
                            (.obj (eraseAllL "notificationEndpointIds" rkvs)))
                          (eraseReadonly kvs) := by
                      apply eraseReadonly_of_none
                      intro f hf
                      have hne : f ≠ "output" := by fin_cases hf <;> decide
                      rw [alookup_setAllL_ne "output" f (Ne.symm hne)]
                      exact alookup_eraseReadonly_ro f hf kvs
                    have hO : alookup "output"
                        (setAllL "output"
                          (setInObj (.obj okvs) "recipients"
                            (.obj (eraseAllL "notificationEndpointIds" rkvs)))
                          (eraseReadonly kvs)) =
                        some (setInObj (.obj okvs) "recipients"
                          (.obj (eraseAllL "notificationEndpointIds" rkvs))) := by
                      rw [alookup_setAllL_self, ho]; rfl
                    have hRec : pyInStr "recipients"
                        (setInObj (.obj okvs) "recipients"
                          (.obj (eraseAllL "notificationEndpointIds" rkvs))) =
                        .ok true := by
                      simp [setInObj, pyInStr, hasKeyL, alookup_setAllL_self, hor]
                    have hGet : pyGetItemStr
                        (setInObj (.obj okvs) "recipients"
                          (.obj (eraseAllL "notificationEndpointIds" rkvs)))
                        "recipients" =
                        .ok (.obj (eraseAllL "notificationEndpointIds" rkvs)) := by
                      simp [setInObj, pyGetItemStr, alookup_setAllL_self, hor]
                    have hN : pyInStr "notificationEndpointIds"
                        (.obj (eraseAllL "notificationEndpointIds" rkvs)) =
                        .ok false := by
                      simp [pyInStr, hasKeyL, alookup_eraseAllL_self]
                    simp [cleanRuleJson, hER, hO, hRec, hGet, hN]
                  next hk => exact absurd hd (by simp)

/-- C9: normalization is idempotent — for every document on which
`clean_rule_json` succeeds, running it again on the normalized result
returns that result unchanged. -/
theorem c9_normalization_idem (d d' : JVal) (h : cleanRuleJson d = .ok d') :
    cleanRuleJson d' = .ok d' :=
  cleanRuleJson_idem_aux d d' h

/-- C9 witness: a concrete run of the idempotence theorem. -/
theorem c9_normalization_idem_witness :
    cleanRuleJson (.obj []) = .ok (.obj []) :=
  c9_normalization_idem (.obj [("id", .num 1)]) (.obj []) rfl

theorem noRoot_of_none (kvs : List (String × JVal))
    (h : ∀ f ∈ readonlyFields, alookup f kvs = none) :
    noRootServerFields (.obj kvs) = true := by
  simp only [noRootServerFields, objLookup, readonlyFields, List.all_cons, List.all_nil,
    Bool.and_true]
  rw [h "id" (by decide), h "createdAt" (by decide), h "createdBy" (by decide),
      h "updatedAt" (by decide), h "updatedBy" (by decide)]
  rfl

theorem noRoot_eraseReadonly (kvs : List (String × JVal)) :
    noRootServerFields (.obj (eraseReadonly kvs)) = true :=
  noRoot_of_none _ (fun f hf => alookup_eraseReadonly_ro f hf kvs)

theorem noRoot_setAll_eraseReadonly (v : JVal) (kvs : List (String × JVal)) :
    noRootServerFields (.obj (setAllL "output" v (eraseReadonly kvs))) = true := by
  apply noRoot_of_none
  intro f hf
  have hne : f ≠ "output" := by fin_cases hf <;> decide
  rw [alookup_setAllL_ne "output" f (Ne.symm hne)]
  exact alookup_eraseReadonly_ro f hf kvs

/-- Whatever `clean_rule_json` returns has no read-only root field and no
`output.recipients.notificationEndpointIds`. -/
theorem cleanRuleJson_scope (d res : JVal) (h : cleanRuleJson d = .ok res) :
    noRootServerFields res = true ∧ notifIdsAbsent res = true := by
  cases d with
  | null => simp [cleanRuleJson] at h
  | bool b => simp [cleanRuleJson] at h
  | num q => simp [cleanRuleJson] at h
  | str s => simp [cleanRuleJson] at h
  | arr xs => simp [cleanRuleJson] at h
  | obj kvs =>
    simp only [cleanRuleJson] at h
    split at h
    next ho =>
      injection h with h
      subst h
      exact ⟨noRoot_eraseReadonly kvs, by simp [notifIdsAbsent, objLookup, ho]⟩
    next o ho =>
      split at h
      next e he => exact absurd h (by simp)
      next hr =>
        injection h with h
        subst h
        refine ⟨noRoot_eraseReadonly kvs, ?_⟩
        simp only [notifIdsAbsent, objLookup, ho]
        cases o with
        | obj okvs =>
          simp only [pyInStr] at hr
          injection hr with hr
          simp only [hasKeyL] at hr
          cases hlk : alookup "recipients" okvs with
          | none => simp [hlk]
          | some w => rw [hlk] at hr; simp at hr
        | null => simp
        | bool b => simp
        | num q => simp
        | str s => simp
        | arr l => simp
      next hr =>
        split at h
        next e hg => exact absurd h (by simp)
        next r hg =>
          split at h
          next e hn => exact absurd h (by simp)
          next hn =>
            injection h with h
            subst h
            refine ⟨noRoot_eraseReadonly kvs, ?_⟩
            cases o with
            | null => simp [pyGetItemStr] at hg
            | bool b => simp [pyGetItemStr] at hg
            | num q => simp [pyGetItemStr] at hg
            | str s => simp [pyGetItemStr] at hg
            | arr l => simp [pyGetItemStr] at hg
            | obj okvs =>
              have hor : alookup "recipients" okvs = some r := by
                simp only [pyGetItemStr] at hg
                split at hg
                next w hw =>
                  injection hg with hg
                  rw [← hg]; exact hw
                next hw => exact absurd hg (by simp)
              simp only [notifIdsAbsent, objLookup, ho, hor]
              cases r with
              | obj rkvs =>
                simp only [pyInStr] at hn
                injection hn with hn
                simp only [hasKeyL] at hn
                cases hlk : alookup "notificationEndpointIds" rkvs with
                | none => simp [hlk]
                | some w => rw [hlk] at hn; simp at hn
              | null => simp
              | bool b => simp
              | num q => simp
              | str s => simp
              | arr l => simp
          next hn =>
            split at h
            next e hd => exact absurd h (by simp)
            next r' hd =>
              injection h with h
              subst h
              cases o with
              | null => simp [pyGetItemStr] at hg
              | bool b => simp [pyGetItemStr] at hg
              | num q => simp [pyGetItemStr] at hg
              | str s => simp [pyGetItemStr] at hg
              | arr l => simp [pyGetItemStr] at hg
              | obj okvs =>
                have hor : alookup "recipients" okvs = some r := by
                  simp only [pyGetItemStr] at hg
                  split at hg
                  next w hw =>
                    injection hg with hg
                    rw [← hg]; exact hw
                  next hw => exact absurd hg (by simp)
                cases r with
                | null => simp [pyDelItemStr] at hd
                | bool b => simp [pyDelItemStr] at hd
                | num q => simp [pyDelItemStr] at hd
                | str s => simp [pyDelItemStr] at hd
                | arr l => simp [pyDelItemStr] at hd
                | obj rkvs =>
                  simp only [pyDelItemStr] at hd
                  split at hd
                  next hk =>
                    injection hd with hd
                    subst hd
                    refine ⟨noRoot_setAll_eraseReadonly _ kvs, ?_⟩
                    simp only [notifIdsAbsent, objLookup, alookup_setAllL_self, ho,
                      Option.map_some', setInObj, alookup_setAllL_self, hor,
                      alookup_eraseAllL_self]
                    rfl
                  next hk => exact absurd hd (by simp)

/-- A successful `if 'id' in component: del component['id']` leaves no
`id` key in a mapping component (non-mapping components never carry one). -/
theorem stripComponentId_no_id (x x' : JVal) (h : stripComponentId x = .ok x') :
    (objLookup "id" x').isNone = true := by
  simp only [stripComponentId] at h
  split at h
  next e he => exact absurd h (by simp)
  next hin =>
    cases x with
    | null => simp [pyDelItemStr] at h
    | bool b => simp [pyDelItemStr] at h
    | num q => simp [pyDelItemStr] at h
    | str s => simp [pyDelItemStr] at h
    | arr l => simp [pyDelItemStr] at h
    | obj kvs =>
      simp only [pyDelItemStr] at h
      split at h
      next hk =>
        injection h with h
        subst h
        simp [objLookup, alookup_eraseAllL_self]
      next hk => exact absurd h (by simp)
  next hin =>
    injection h with h
    subst h
    cases x with
    | obj kvs =>
      simp only [pyInStr] at hin
      injection hin with hin
      simp only [hasKeyL] at hin
      simp only [objLookup, Option.isNone]
      cases hlk : alookup "id" kvs with
      | none => rfl
      | some w => rw [hlk] at hin; simp at hin
    | null => rfl
    | bool b => rfl
    | num q => rfl
    | str s => rfl
    | arr l => rfl

/-- The subComponents loop leaves no `id` key in any mapping element. -/
theorem stripAllComponents_no_id (xs xs' : List JVal)
    (h : stripAllComponents xs = .ok xs') :
    ∀ x' ∈ xs', (objLookup "id" x').isNone = true := by
  induction xs generalizing xs' with
  | nil =>
    simp only [stripAllComponents] at h
    injection h with h
    subst h
    intro x hx
    simp at hx
  | cons x rest ih =>
    simp only [stripAllComponents] at h
    split at h
    next e he => exact absurd h (by simp)
    next y hy =>
      split at h
      next e he => exact absurd h (by simp)
      next ys hys =>
        injection h with h
        subst h
        intro z hz
        rcases List.mem_cons.mp hz with hz | hz
        · subst hz
          exact stripComponentId_no_id x z hy
        · exact ih ys hys z hz

/-- Whatever `clean_rule` returns has no read-only root field and no `id`
key in any mapping element of its `subComponents`. -/
theorem cleanRule_scope (d res after : JVal) (h : cleanRule d = .ok (res, after)) :
    noRootServerFields res = true ∧ subIdsAbsent res = true := by
  cases d with
  | null => simp [cleanRule] at h
  | bool b => simp [cleanRule] at h
  | num q => simp [cleanRule] at h
  | str s => simp [cleanRule] at h
  | arr xs =>
    simp only [cleanRule] at h
    split at h
    · exact absurd h (by simp)
    · split at h
      · exact absurd h (by simp)
      · split at h
        · exact absurd h (by simp)
        · injection h with h
          injection h with h1 h2
          subst h1
          constructor
          · rfl
          · rfl
  | obj kvs =>
    simp only [cleanRule] at h
    split at h
    next e hp => exact absurd h (by simp)
    next pv hp =>
      split at h
      next hsc =>
        injection h with h
        injection h with h1 h2
        subst h1
        exact ⟨noRoot_eraseReadonly kvs, by simp [subIdsAbsent, objLookup, hsc]⟩
      next sc hsc =>
        split at h
        next e hi => exact absurd h (by simp)
        next sc' hi =>
          injection h with h
          injection h with h1 h2
          subst h1
          refine ⟨?_, ?_⟩
          · apply noRoot_of_none
            intro f hf
            have hne : f ≠ "subComponents" := by fin_cases hf <;> decide
            rw [alookup_setAllL_ne "subComponents" f (Ne.symm hne)]
            exact alookup_eraseReadonly_ro f hf kvs
          · simp only [subIdsAbsent, objLookup, alookup_setAllL_self, hsc,
              Option.map_some']
            cases sc with
            | arr xs =>
              simp only [subCompIter] at hi
              split at hi
              next e hs => exact absurd hi (by simp)
              next xs' hs =>
                injection hi with hi
                subst hi
                simp only [List.all_eq_true]
                intro z hz
                exact stripAllComponents_no_id xs xs' hs z hz
            | obj okvs =>
              simp only [subCompIter] at hi
              split at hi
              next => exact absurd hi (by simp)
              next =>
                injection hi with hi
                subst hi
                rfl
            | str s =>
              simp only [subCompIter] at hi
              injection hi with hi
              subst hi
              rfl
            | null => simp [subCompIter] at hi
            | bool b => simp [subCompIter] at hi
            | num q => simp [subCompIter] at hi

/-- C1 counterexample: neither normalizer establishes the full claimed
property.  `clean_rule_json` leaves the `id` inside a subComponent
untouched, and `clean_rule` leaves
`output.recipients.notificationEndpointIds` untouched (its deletion is
commented out in the source), so on these inputs the normalized result
is not fully normalized in the claimed sense. -/
theorem c1_normalization_scope_counterexample :
    cleanRuleJson (.obj [("subComponents", .arr [.obj [("id", .num 1)]])]) =
      .ok (.obj [("subComponents", .arr [.obj [("id", .num 1)]])]) ∧
    fullyNormalized (.obj [("subComponents", .arr [.obj [("id", .num 1)]])]) = false ∧
    cleanRule (.obj [("output", .obj [("recipients",
        .obj [("notificationEndpointIds", .arr [])])])]) =
      .ok (.obj [("output", .obj [("recipients",
             .obj [("notificationEndpointIds", .arr [])])])],
           .obj [("output", .obj [("recipients",
             .obj [("notificationEndpointIds", .arr [])])])]) ∧
    fullyNormalized (.obj [("output", .obj [("recipients",
        .obj [("notificationEndpointIds", .arr [])])])]) = false :=
  ⟨rfl, rfl, rfl, rfl⟩

/-- C1 amended: each normalizer removes what it actually removes —
`clean_rule_json` strips the five read-only root fields and
`output.recipients.notificationEndpointIds` (but not subComponent ids),
and `clean_rule` strips the five read-only root fields and the `id` of
every subComponent mapping (but not notificationEndpointIds). -/
theorem c1_normalization_scope_amended :
    (∀ d res, cleanRuleJson d = .ok res →
      noRootServerFields res = true ∧ notifIdsAbsent res = true) ∧
    (∀ d res after, cleanRule d = .ok (res, after) →
      noRootServerFields res = true ∧ subIdsAbsent res = true) :=
  ⟨fun d res h => cleanRuleJson_scope d res h,
   fun d res after h => cleanRule_scope d res after h⟩

/-- C1 amended witness: the amended theorem applied at concrete inputs. -/
theorem c1_normalization_scope_amended_witness :
    (noRootServerFields (.obj []) = true ∧ notifIdsAbsent (.obj []) = true) ∧
    (noRootServerFields (.obj [("subComponents", .arr [.obj []])]) = true ∧
      subIdsAbsent (.obj [("subComponents", .arr [.obj []])]) = true) :=
  ⟨c1_normalization_scope_amended.1 (.obj [("id", .num 1)]) (.obj []) rfl,
   c1_normalization_scope_amended.2
     (.obj [("subComponents", .arr [.obj [("id", .num 7)]])])
     (.obj [("subComponents", .arr [.obj []])])
     (.obj [("subComponents", .arr [.obj []])]) rfl⟩

/-- C3: `clean_rule` mutates its input.  On a document whose only key is
`subComponents` with one component carrying an `id`, the call succeeds
but the document seen by the caller afterwards (second component of the
model's result) has lost the nested `id` key: the shallow `rule.copy()`
shares the subComponent mappings with the input.  This contradicts the
claim (and the specification's no-mutation lifecycle invariant); the
deploy-side `clean_rule_json` explicitly uses `copy.deepcopy` with a
comment that this is needed for subComponents, so the shallow copy in
clean-rules.py is a slip. -/
theorem c3_cleanRule_mutates_input :
    cleanRule (.obj [("subComponents", .arr [.obj [("id", .num 7)]])]) =
      .ok (.obj [("subComponents", .arr [.obj []])],
           .obj [("subComponents", .arr [.obj []])]) ∧
    (JVal.obj [("subComponents", .arr [.obj []])]) ≠
      .obj [("subComponents", .arr [.obj [("id", .num 7)]])] :=
  ⟨rfl, by simp⟩

/-! ## The schema validator (Rule Exporter/validate-rules.py)

`LogzioRuleValidator` appends findings to `self.errors` / `self.warnings`
and returns a boolean.  A run is modelled as a writer-plus-exception
value: the findings produced by the call, in order, kept even when a
Python operation raises mid-run. -/

/-- The findings of a completed validation call: errors, warnings, and
the returned boolean. -/
structure Findings where
  errors : List String
  warnings : List String
  valid : Bool
deriving Repr, DecidableEq

/-- Outcome of a validation fragment: either completed, or a raised
exception together with the findings appended before the raise. -/
inductive VOut : Type where
  | ok : Findings → VOut
  | exn : PyErr → List String → List String → VOut
deriving Repr, DecidableEq

/-- A fragment producing no finding, returning `b`. -/
def vpure (b : Bool) : VOut := .ok ⟨[], [], b⟩

/-- A fragment appending one error (`self.errors.append`, `valid = False`). -/
def verr (m : String) : VOut := .ok ⟨[m], [], false⟩

/-- A fragment appending one warning (`self.warnings.append`). -/
def vwarn (m : String) : VOut := .ok ⟨[], [m], true⟩

/-- Sequencing of two fragments: findings concatenate in order, the
boolean is the conjunction, a raise cuts the run short. -/
def vseq : VOut → VOut → VOut
  | .ok f, .ok g => .ok ⟨f.errors ++ g.errors, f.warnings ++ g.warnings, f.valid && g.valid⟩
  | .ok f, .exn e es ws => .exn e (f.errors ++ es) (f.warnings ++ ws)
  | .exn e es ws, _ => .exn e es ws

/-- A raising Python operation inside a fragment. -/
def vexc {α : Type} : Except PyErr α → (α → VOut) → VOut
  | .error e, _ => .exn e [] []
  | .ok a, k => k a

/-- Errors appended by a run, completed or not. -/
def errsOf : VOut → List String
  | .ok f => f.errors
  | .exn _ es _ => es

/-- Warnings appended by a run, completed or not. -/
def warnsOf : VOut → List String
  | .ok f => f.warnings
  | .exn _ _ ws => ws

/-- The two findings of the `searchTimeFrameMinutes` block. -/
def msgStfmNum (fp : String) : String :=
  "'searchTimeFrameMinutes' must be a number in " ++ fp

/-- The not-positive finding of the `searchTimeFrameMinutes` block. -/
def msgStfmPos (fp : String) : String :=
  "'searchTimeFrameMinutes' must be positive in " ++ fp

/-- The required root fields (validate-rules.py line 49). -/
def requiredFieldsList : List String := ["title", "enabled", "searchTimeFrameMinutes", "subComponents"]

/-- `for field in required_fields: if field not in rule: error`. -/
def requiredLoop (rule : JVal) (fp : String) : List String → VOut
  | [] => vpure true
  | f :: fs =>
    vseq
      (vexc (pyInStr f rule) (fun b =>
        if b then vpure true
        else verr ("Missing required field '" ++ f ++ "' in " ++ fp)))
      (requiredLoop rule fp fs)

/-- The required-fields pass. -/
def requiredBlock (rule : JVal) (fp : String) : VOut :=
  requiredLoop rule fp requiredFieldsList

/-- `if 'title' in rule: if not rule['title'] or not isinstance(rule['title'], str): error`. -/
def titleBlock (rule : JVal) (fp : String) : VOut :=
  vexc (pyInStr "title" rule) (fun b =>
    if b then
      vexc (pyGetItemStr rule "title") (fun t =>
        if !pyTruthy t || !t.isStr then
          verr ("'title' must be a non-empty string in " ++ fp)
        else vpure true)
    else vpure true)

/-- `if 'enabled' in rule: if not isinstance(rule['enabled'], bool): error`. -/
def enabledBlock (rule : JVal) (fp : String) : VOut :=
  vexc (pyInStr "enabled" rule) (fun b =>
    if b then
      vexc (pyGetItemStr rule "enabled") (fun v =>
        if !v.isBool then verr ("'enabled' must be a boolean in " ++ fp)
        else vpure true)
    else vpure true)

/-- The `searchTimeFrameMinutes` block (validate-rules.py lines 69-75):
`if not isinstance(v, (int, float)): error  elif v <= 0: error`. -/
def stfmBlock (rule : JVal) (fp : String) : VOut :=
  vexc (pyInStr "searchTimeFrameMinutes" rule) (fun b =>
    if b then
      vexc (pyGetItemStr rule "searchTimeFrameMinutes") (fun v =>
        if !pyIsNumber v then verr (msgStfmNum fp)
        else if pyNumLe0 v then verr (msgStfmPos fp)
        else vpure true)
    else vpure true)

/-- `recipients.get(k) and len(recipients[k]) > 0`. -/
def truthyLenPos (r : JVal) (k : String) : Except PyErr Bool :=
  match pyGetOpt r k with
  | .error e => .error e
  | .ok none => .ok false
  | .ok (some v) =>
    if !pyTruthy v then .ok false
    else
      match pyLen v with
      | .error e => .error e
      | .ok n => .ok (decide (0 < n))

/-- `for email in emails: if '@' not in email: warning`. -/
def emailLoop (fp : String) : List JVal → VOut
  | [] => vpure true
  | e :: es =>
    vseq
      (vexc (pyInStr "@" e) (fun b =>
        if b then vpure true
        else vwarn ("Invalid email format: " ++ pyStr e ++ " in " ++ fp)))
      (emailLoop fp es)

/-- The `emails` shape check inside `validate_output`. -/
def emailsCheck (recipients : JVal) (fp : String) : VOut :=
  vexc (pyInStr "emails" recipients) (fun b =>
    if b then
      vexc (pyGetItemStr recipients "emails") (fun e =>
        match e with
        | .arr xs => emailLoop fp xs
        | _ => verr ("'emails' must be a list in " ++ fp))
    else vpure true)

/-- The `suppressNotificationsMinutes` check inside `validate_output`. -/
def suppressCheck (output : JVal) (fp : String) : VOut :=
  vexc (pyInStr "suppressNotificationsMinutes" output) (fun b =>
    if b then
      vexc (pyGetItemStr output "suppressNotificationsMinutes") (fun v =>
        if !pyIsNumber v then
          verr ("'suppressNotificationsMinutes' must be a number in " ++ fp)
        else vpure true)
    else vwarn ("Consider adding 'suppressNotificationsMinutes' in " ++ fp ++
      " to avoid alert fatigue"))

/-- `LogzioRuleValidator.validate_output` (lines 126-167). -/
def validateOutput (output : JVal) (fp : String) : VOut :=
  vexc (pyInStr "recipients" output) (fun hasRec =>
    if !hasRec then vwarn ("No 'recipients' in output for " ++ fp)
    else
      vexc (pyGetItemStr output "recipients") (fun recipients =>
        vexc (truthyLenPos recipients "emails") (fun hasEmails =>
          vexc (truthyLenPos recipients "notificationEndpointIds") (fun hasEndpoints =>
            vseq
              (if !hasEmails && !hasEndpoints then
                vwarn ("No notification recipients (emails or endpoints) configured in " ++ fp)
               else vpure true)
              (vseq (emailsCheck recipients fp) (suppressCheck output fp))))))

/-- `if 'output' in rule: validate_output(...)  else: warning`. -/
def outputBlock (rule : JVal) (fp : String) : VOut :=
  vexc (pyInStr "output" rule) (fun b =>
    if b then vexc (pyGetItemStr rule "output") (fun o => validateOutput o fp)
    else vwarn ("Missing 'output' field in " ++ fp ++ " - rule won't send notifications"))

/-- The closed set of aggregation types (line 206). -/
def validAggTypes : List String := ["COUNT", "SUM", "AVG", "MAX", "MIN", "UNIQUE_COUNT", "NONE"]

/-- The closed set of trigger operators (lines 237-240). -/
def validOps : List String :=
  ["GREATER_THAN", "LESS_THAN", "EQUALS", "NOT_EQUALS",
   "GREATER_THAN_OR_EQUALS", "LESS_THAN_OR_EQUALS"]

/-- The closed set of severities (line 260). -/
def validSevs : List String := ["LOW", "MEDIUM", "HIGH", "SEVERE"]

/-- `', '.join(l)`. -/
def joinComma (l : List String) : String := String.intercalate ", " l

/-- The `query` check of `validate_query_definition`. -/
def queryPart (qd : JVal) (ref fp : String) : VOut :=
  vexc (pyInStr "query" qd) (fun b =>
    if !b then verr ("Missing 'query' in " ++ ref ++ ".queryDefinition of " ++ fp)
    else
      vexc (pyGetItemStr qd "query") (fun q =>
        if !pyTruthy q then
          vwarn ("Empty query in " ++ ref ++ ".queryDefinition of " ++ fp)
        else vpure true))

/-- The `aggregation.aggregationType` check of `validate_query_definition`. -/
def aggPart (qd : JVal) (ref fp : String) : VOut :=
  vexc (pyInStr "aggregation" qd) (fun b =>
    if b then
      vexc (pyGetItemStr qd "aggregation") (fun agg =>
        vexc (pyInStr "aggregationType" agg) (fun b2 =>
          if b2 then
            vexc (pyGetItemStr agg "aggregationType") (fun t =>
              if validAggTypes.any (fun s => pyEq t (.str s)) then vpure true
              else verr ("Invalid aggregationType '" ++ pyStr t ++ "' in " ++ ref ++
                " of " ++ fp ++ ". Must be one of: " ++ joinComma validAggTypes))
          else vpure true))
    else vpure true)

/-- The `filters` check of `validate_query_definition`. -/
def filtersPart (qd : JVal) (ref fp : String) : VOut :=
  vexc (pyInStr "filters" qd) (fun b =>
    if b then
      vexc (pyGetItemStr qd "filters") (fun f =>
        if !f.isObj then verr ("'filters' must be an object in " ++ ref ++ " of " ++ fp)
        else vpure true)
    else vpure true)

/-- The `groupBy` check of `validate_query_definition`. -/
def groupByPart (qd : JVal) (ref fp : String) : VOut :=
  vexc (pyInStr "groupBy" qd) (fun b =>
    if b then
      vexc (pyGetItemStr qd "groupBy") (fun g =>
        if !g.isArr then verr ("'groupBy' must be a list in " ++ ref ++ " of " ++ fp)
        else vpure true)
    else vpure true)

/-- `LogzioRuleValidator.validate_query_definition` (lines 191-226). -/
def validateQueryDefinition (qd : JVal) (ref fp : String) : VOut :=
  vseq (queryPart qd ref fp)
    (vseq (aggPart qd ref fp) (vseq (filtersPart qd ref fp) (groupByPart qd ref fp)))

/-- The `operator` check of `validate_trigger`. -/
def operatorPart (t : JVal) (ref fp : String) : VOut :=
  vexc (pyInStr "operator" t) (fun b =>
    if !b then verr ("Missing 'operator' in " ++ ref ++ ".trigger of " ++ fp)
    else
      vexc (pyGetItemStr t "operator") (fun op =>
        if validOps.any (fun s => pyEq op (.str s)) then vpure true
        else verr ("Invalid operator '" ++ pyStr op ++ "' in " ++ ref ++ ".trigger of " ++
          fp ++ ". Must be one of: " ++ joinComma validOps)))

/-- `for severity, threshold in tiers.items(): …` — each entry may yield a
bad-severity error and a bad-threshold error, independently. -/
def tiersLoop (ref fp : String) : List (String × JVal) → VOut
  | [] => vpure true
  | (sev, thr) :: rest =>
    vseq
      (vseq
        (if validSevs.contains sev then vpure true
         else verr ("Invalid severity '" ++ sev ++ "' in " ++ ref ++ ".trigger of " ++ fp ++
           ". Must be one of: " ++ joinComma validSevs))
        (if !pyIsNumber thr then
          verr ("Threshold for " ++ sev ++ " must be a number in " ++ ref ++ ".trigger of " ++ fp)
         else vpure true))
      (tiersLoop ref fp rest)

/-- The `severityThresholdTiers` check of `validate_trigger`. -/
def tiersPart (t : JVal) (ref fp : String) : VOut :=
  vexc (pyInStr "severityThresholdTiers" t) (fun b =>
    if !b then verr ("Missing 'severityThresholdTiers' in " ++ ref ++ ".trigger of " ++ fp)
    else
      vexc (pyGetItemStr t "severityThresholdTiers") (fun tiers =>
        match tiers with
        | .obj kvs => tiersLoop ref fp kvs
        | _ => verr ("'severityThresholdTiers' must be an object in " ++ ref ++
            ".trigger of " ++ fp)))

/-- `LogzioRuleValidator.validate_trigger` (lines 228-274). -/
def validateTrigger (t : JVal) (ref fp : String) : VOut :=
  vseq (operatorPart t ref fp) (tiersPart t ref fp)

/-- `LogzioRuleValidator.validate_subcomponent` (lines 169-189). -/
def validateSubcomponent (component : JVal) (idx : Nat) (fp : String) : VOut :=
  vseq
    (vexc (pyInStr "queryDefinition" component) (fun b =>
      if !b then
        verr ("Missing 'queryDefinition' in subComponents[" ++ toString idx ++ "] of " ++ fp)
      else
        vexc (pyGetItemStr component "queryDefinition") (fun qd =>
          validateQueryDefinition qd ("subComponents[" ++ toString idx ++ "]") fp)))
    (vexc (pyInStr "trigger" component) (fun b =>
      if !b then
        verr ("Missing 'trigger' in subComponents[" ++ toString idx ++ "] of " ++ fp)
      else
        vexc (pyGetItemStr component "trigger") (fun t =>
          validateTrigger t ("subComponents[" ++ toString idx ++ "]") fp)))

/-- `for idx, component in enumerate(rule['subComponents']): …`. -/
def subLoop (fp : String) : List JVal → Nat → VOut
  | [], _ => vpure true
  | c :: cs, idx => vseq (validateSubcomponent c idx fp) (subLoop fp cs (idx + 1))

/-- The `subComponents` block of `validate_security_rule` (lines 85-95). -/
def subsBlock (rule : JVal) (fp : String) : VOut :=
  vexc (pyInStr "subComponents" rule) (fun b =>
    if b then
      vexc (pyGetItemStr rule "subComponents") (fun sc =>
        match sc with
        | .arr xs =>
          if xs.isEmpty then verr ("'subComponents' cannot be empty in " ++ fp)
          else subLoop fp xs 0
        | _ => verr ("'subComponents' must be a list in " ++ fp))
    else vpure true)

/-- `for op in correlations['correlationOperators']: …`. -/
def corrOpLoop (fp : String) : List JVal → VOut
  | [] => vpure true
  | op :: rest =>
    vseq
      (if ["AND", "OR"].any (fun s => pyEq op (.str s)) then vpure true
       else verr ("Invalid correlation operator '" ++ pyStr op ++ "' in " ++ fp ++
         ". Must be one of: AND, OR"))
      (corrOpLoop fp rest)

/-- The `correlationOperators` check of `validate_correlations`. -/
def corrOpsPart (c : JVal) (fp : String) : VOut :=
  vexc (pyInStr "correlationOperators" c) (fun b =>
    if b then
      vexc (pyGetItemStr c "correlationOperators") (fun v =>
        match v with
        | .arr xs => corrOpLoop fp xs
        | _ => verr ("'correlationOperators' must be a list in " ++ fp))
    else vpure true)

/-- The `joins` check of `validate_correlations`. -/
def joinsPart (c : JVal) (fp : String) : VOut :=
  vexc (pyInStr "joins" c) (fun b =>
    if b then
      vexc (pyGetItemStr c "joins") (fun v =>
        if !v.isArr then verr ("'joins' must be a list in " ++ fp) else vpure true)
    else vpure true)

/-- `LogzioRuleValidator.validate_correlations` (lines 276-299). -/
def validateCorrelations (c : JVal) (fp : String) : VOut :=
  vseq (corrOpsPart c fp) (joinsPart c fp)

/-- The `correlations` block of `validate_security_rule`. -/
def corrBlock (rule : JVal) (fp : String) : VOut :=
  vexc (pyInStr "correlations" rule) (fun b =>
    if b then vexc (pyGetItemStr rule "correlations") (fun c => validateCorrelations c fp)
    else vpure true)

/-- The `tags` type check of `validate_security_rule` (lines 103-106). -/
def tagsBlock (rule : JVal) (fp : String) : VOut :=
  vexc (pyInStr "tags" rule) (fun b =>
    if b then
      vexc (pyGetItemStr rule "tags") (fun v =>
        if !v.isArr then verr ("'tags' must be a list in " ++ fp) else vpure true)
    else vpure true)

/-- `if 'description' not in rule or not rule.get('description'): warning`. -/
def descPart (rule : JVal) (fp : String) : VOut :=
  vexc (pyInStr "description" rule) (fun b =>
    if !b then vwarn ("Missing or empty 'description' in " ++ fp)
    else
      vexc (pyGetD rule "description" .null) (fun v =>
        if !pyTruthy v then vwarn ("Missing or empty 'description' in " ++ fp)
        else vpure true))

/-- `if 'tags' not in rule or not rule.get('tags'): warning`. -/
def tagsRecPart (rule : JVal) (fp : String) : VOut :=
  vexc (pyInStr "tags" rule) (fun b =>
    if !b then
      vwarn ("No tags defined in " ++ fp ++ " - consider adding tags for organization")
    else
      vexc (pyGetD rule "tags" .null) (fun v =>
        if !pyTruthy v then
          vwarn ("No tags defined in " ++ fp ++ " - consider adding tags for organization")
        else vpure true))

/-- The recommended-fields pass (lines 109-113). -/
def recBlock (rule : JVal) (fp : String) : VOut :=
  vseq (descPart rule fp) (tagsRecPart rule fp)

/-- `for field in readonly_fields: if field in rule: warning` (lines 116-122). -/
def roLoop (rule : JVal) (fp : String) : List String → VOut
  | [] => vpure true
  | f :: fs =>
    vseq
      (vexc (pyInStr f rule) (fun b =>
        if b then
          vwarn ("Read-only field '" ++ f ++ "' found in " ++ fp ++
            " - this will be ignored on creation")
        else vpure true))
      (roLoop rule fp fs)

/-- The read-only-fields warnings pass. -/
def roBlock (rule : JVal) (fp : String) : VOut :=
  roLoop rule fp readonlyFields

/-- `LogzioRuleValidator.validate_security_rule` (lines 44-124): the
blocks in source order, findings concatenated, the returned boolean the
conjunction of the block outcomes. -/
def validateSecurityRule (rule : JVal) (fp : String) : VOut :=
  vseq (requiredBlock rule fp)
    (vseq (titleBlock rule fp)
      (vseq (enabledBlock rule fp)
        (vseq (stfmBlock rule fp)
          (vseq (outputBlock rule fp)
            (vseq (subsBlock rule fp)
              (vseq (corrBlock rule fp)
                (vseq (tagsBlock rule fp)
                  (vseq (recBlock rule fp) (roBlock rule fp)))))))))

/-! ### Specification-side schema validity

The checks of spec §4.1, written independently of the runner as one
boolean predicate.  The numeric test is a parameter: `pyIsNumber` gives
the checks as Python's `isinstance(v, (int, float))` evaluates them
(booleans count as numbers), `JVal.isNum` gives the specification's data
model reading where boolean and number are distinct kinds. -/

/-- All required root fields present. -/
def passRequired (rule : JVal) : Bool :=
  requiredFieldsList.all (fun f => (objLookup f rule).isSome)

/-- `title`, when present, is a non-empty string. -/
def passTitle (rule : JVal) : Bool :=
  match objLookup "title" rule with
  | none => true
  | some t => pyTruthy t && t.isStr

/-- `enabled`, when present, is a boolean. -/
def passEnabled (rule : JVal) : Bool :=
  match objLookup "enabled" rule with
  | none => true
  | some v => v.isBool

/-- `searchTimeFrameMinutes`, when present, is numeric and positive. -/
def passStfm (numOk : JVal → Bool) (rule : JVal) : Bool :=
  match objLookup "searchTimeFrameMinutes" rule with
  | none => true
  | some v => numOk v && !pyNumLe0 v

/-- The error-level checks of §4.1a on an `output` value. -/
def passOutputVal (numOk : JVal → Bool) (o : JVal) : Bool :=
  match objLookup "recipients" o with
  | none => true
  | some r =>
    match r with
    | .obj rkvs =>
        (match alookup "emails" rkvs with
         | none => true
         | some e => e.isArr) &&
        (match objLookup "suppressNotificationsMinutes" o with
         | none => true
         | some v => numOk v)
    | _ => false

/-- The `output` check at the root. -/
def passOutput (numOk : JVal → Bool) (rule : JVal) : Bool :=
  match objLookup "output" rule with
  | none => true
  | some o => passOutputVal numOk o

/-- The error-level checks of §4.1b on a queryDefinition value. -/
def passQd (qd : JVal) : Bool :=
  (objLookup "query" qd).isSome &&
  (match objLookup "aggregation" qd with
   | none => true
   | some a =>
     match objLookup "aggregationType" a with
     | none => true
     | some t => validAggTypes.any (fun s => pyEq t (.str s))) &&
  (match objLookup "filters" qd with
   | none => true
   | some f => f.isObj) &&
  (match objLookup "groupBy" qd with
   | none => true
   | some g => g.isArr)

/-- The error-level checks of §4.1c on a trigger value. -/
def passTrig (numOk : JVal → Bool) (t : JVal) : Bool :=
  (match objLookup "operator" t with
   | none => false
   | some op => validOps.any (fun s => pyEq op (.str s))) &&
  (match objLookup "severityThresholdTiers" t with
   | some (.obj tiers) => tiers.all (fun kv => validSevs.contains kv.1 && numOk kv.2)
   | some _ => false
   | none => false)

/-- One subComponent: queryDefinition and trigger present and valid. -/
def passComponent (numOk : JVal → Bool) (c : JVal) : Bool :=
  (match objLookup "queryDefinition" c with
   | none => false
   | some qd => passQd qd) &&
  (match objLookup "trigger" c with
   | none => false
   | some t => passTrig numOk t)

/-- `subComponents`, when present, is a non-empty sequence of valid
subComponents. -/
def passSubs (numOk : JVal → Bool) (rule : JVal) : Bool :=
  match objLookup "subComponents" rule with
  | none => true
  | some (.arr xs) => !xs.isEmpty && xs.all (passComponent numOk)
  | some _ => false

/-- The §4.1 checks on `correlations`. -/
def passCorr (rule : JVal) : Bool :=
  match objLookup "correlations" rule with
  | none => true
  | some c =>
    (match objLookup "correlationOperators" c with
     | none => true
     | some (.arr xs) => xs.all (fun op => ["AND", "OR"].any (fun s => pyEq op (.str s)))
     | some _ => false) &&
    (match objLookup "joins" c with
     | none => true
     | some v => v.isArr)

/-- `tags`, when present, is a sequence. -/
def passTags (rule : JVal) : Bool :=
  match objLookup "tags" rule with
  | none => true
  | some v => v.isArr

/-- The document passes every required-field, type/shape and closed-set
check of §4.1, with the given numeric test. -/
def allChecksPass (numOk : JVal → Bool) (rule : JVal) : Bool :=
  passRequired rule && passTitle rule && passEnabled rule && passStfm numOk rule &&
  passOutput numOk rule && passSubs numOk rule && passCorr rule && passTags rule

/-! ### Relating runner fragments to the specification checks -/

/-- A completed fragment's errors are empty exactly when its check
passes, and its boolean return is true exactly when it appended no
error.  (A fragment cut short by a raise is not constrained.) -/
def blockGood (out : VOut) (pass : Bool) : Prop :=
  match out with
  | .ok f => (f.errors = [] ↔ pass = true) ∧ (f.valid = true ↔ f.errors = [])
  | .exn _ _ _ => True

theorem blockGood_vpure_true : blockGood (vpure true) true := by
  simp [blockGood, vpure]

theorem blockGood_verr (m : String) : blockGood (verr m) false := by
  simp [blockGood, verr]

theorem blockGood_vwarn (m : String) : blockGood (vwarn m) true := by
  simp [blockGood, vwarn]

theorem blockGood_vseq {a b : VOut} {pa pb : Bool}
    (ha : blockGood a pa) (hb : blockGood b pb) :
    blockGood (vseq a b) (pa && pb) := by
  cases a with
  | exn e es ws => simp [blockGood, vseq]
  | ok fa =>
    cases b with
    | exn e es ws => simp [blockGood, vseq]
    | ok fb =>
      simp only [blockGood, vseq] at *
      obtain ⟨hae, hav⟩ := ha
      obtain ⟨hbe, hbv⟩ := hb
      constructor
      · rw [List.append_eq_nil]
        constructor
        · rintro ⟨h1, h2⟩
          rw [hae.mp h1, hbe.mp h2]
          rfl
        · intro h
          rcases Bool.and_eq_true_iff.mp h with ⟨h1, h2⟩
          exact ⟨hae.mpr h1, hbe.mpr h2⟩
      · rw [List.append_eq_nil, Bool.and_eq_true_iff, hav, hbv]

theorem blockGood_vexc {α : Type} {x : Except PyErr α} {k : α → VOut} {p : Bool}
    (hk : ∀ a, x = .ok a → blockGood (k a) p) :
    blockGood (vexc x k) p := by
  cases x with
  | error e => simp [blockGood, vexc]
  | ok a => exact hk a rfl

theorem blockGood_congr {out : VOut} {p q : Bool} (h : p = q)
    (hg : blockGood out p) : blockGood out q := h ▸ hg

theorem blockGood_branch (c : Bool) (m : String) :
    blockGood (if c then vpure true else verr m) c := by
  cases c <;> simp [blockGood, vpure, verr]

theorem blockGood_branch_neg (c : Bool) (m : String) :
    blockGood (if c then verr m else vpure true) (!c) := by
  cases c <;> simp [blockGood, vpure, verr]

theorem blockGood_branch_warn (c : Bool) (m : String) :
    blockGood (if c then vpure true else vwarn m) true := by
  cases c <;> simp [blockGood, vpure, vwarn]

theorem hasKeyL_eq_isSome (k : String) (kvs : List (String × JVal)) :
    hasKeyL k kvs = (alookup k kvs).isSome := rfl

theorem requiredLoop_good (kvs : List (String × JVal)) (fp : String) (fs : List String) :
    blockGood (requiredLoop (.obj kvs) fp fs) (fs.all (fun f => hasKeyL f kvs)) := by
  induction fs with
  | nil => simpa [requiredLoop] using blockGood_vpure_true
  | cons f fs ih =>
    have h1 : blockGood
        (vexc (pyInStr f (.obj kvs)) (fun b =>
          if b then vpure true
          else verr ("Missing required field '" ++ f ++ "' in " ++ fp)))
        (hasKeyL f kvs) := by
      apply blockGood_vexc
      intro a ha
      simp only [pyInStr, Except.ok.injEq] at ha
      subst ha
      exact blockGood_branch _ _
    exact blockGood_congr (by simp [List.all_cons]) (blockGood_vseq h1 ih)

theorem requiredBlock_good (kvs : List (String × JVal)) (fp : String) :
    blockGood (requiredBlock (.obj kvs) fp) (passRequired (.obj kvs)) := by
  have := requiredLoop_good kvs fp requiredFieldsList
  apply blockGood_congr _ this
  simp [passRequired, requiredFieldsList, objLookup, hasKeyL]

theorem titleBlock_good (kvs : List (String × JVal)) (fp : String) :
    blockGood (titleBlock (.obj kvs) fp) (passTitle (.obj kvs)) := by
  unfold titleBlock
  apply blockGood_vexc
  intro a ha
  simp only [pyInStr, Except.ok.injEq] at ha
  subst ha
  by_cases hk : hasKeyL "title" kvs
  · rw [if_pos hk]
    apply blockGood_vexc
    intro t ht
    simp only [pyGetItemStr] at ht
    split at ht
    next w hw =>
      injection ht with ht
      subst ht
      apply blockGood_congr _ (blockGood_branch_neg (!pyTruthy w || !w.isStr) _)
      simp [passTitle, objLookup, hw]
    next hw => exact absurd ht (by simp)
  · rw [if_neg hk]
    apply blockGood_congr _ blockGood_vpure_true
    simp only [hasKeyL, Option.isSome] at hk
    simp only [passTitle, objLookup]
    cases hlk : alookup "title" kvs with
    | none => rfl
    | some w => rw [hlk] at hk; simp at hk

theorem enabledBlock_good (kvs : List (String × JVal)) (fp : String) :
    blockGood (enabledBlock (.obj kvs) fp) (passEnabled (.obj kvs)) := by
  unfold enabledBlock
  apply blockGood_vexc
  intro a ha
  simp only [pyInStr, Except.ok.injEq] at ha
  subst ha
  by_cases hk : hasKeyL "enabled" kvs
  · rw [if_pos hk]
    apply blockGood_vexc
    intro v hv
    simp only [pyGetItemStr] at hv
    split at hv
    next w hw =>
      injection hv with hv
      subst hv
      apply blockGood_congr _ (blockGood_branch_neg (!w.isBool) _)
      simp [passEnabled, objLookup, hw]
    next hw => exact absurd hv (by simp)
  · rw [if_neg hk]
    apply blockGood_congr _ blockGood_vpure_true
    simp only [hasKeyL, Option.isSome] at hk
    simp only [passEnabled, objLookup]
    cases hlk : alookup "enabled" kvs with
    | none => rfl
    | some w => rw [hlk] at hk; simp at hk

theorem stfmBlock_good (kvs : List (String × JVal)) (fp : String) :
    blockGood (stfmBlock (.obj kvs) fp) (passStfm pyIsNumber (.obj kvs)) := by
  unfold stfmBlock
  apply blockGood_vexc
  intro a ha
  simp only [pyInStr, Except.ok.injEq] at ha
  subst ha
  by_cases hk : hasKeyL "searchTimeFrameMinutes" kvs
  · rw [if_pos hk]
    apply blockGood_vexc
    intro v hv
    simp only [pyGetItemStr] at hv
    split at hv
    next w hw =>
      injection hv with hv
      subst hv
      by_cases hn : pyIsNumber w
      · rw [if_neg (by simp [hn])]
        by_cases hl : pyNumLe0 w
        · rw [if_pos hl]
          apply blockGood_congr _ (blockGood_verr _)
          simp [passStfm, objLookup, hw, hn, hl]
        · rw [if_neg hl]
          apply blockGood_congr _ blockGood_vpure_true
          simp [passStfm, objLookup, hw, hn, hl]
      · rw [if_pos (by simp [hn])]
        apply blockGood_congr _ (blockGood_verr _)
        simp [passStfm, objLookup, hw]
        intro hc
        exact absurd hc hn
    next hw => exact absurd hv (by simp)
  · rw [if_neg hk]
    apply blockGood_congr _ blockGood_vpure_true
    simp only [hasKeyL, Option.isSome] at hk
    simp only [passStfm, objLookup]
    cases hlk : alookup "searchTimeFrameMinutes" kvs with
    | none => rfl
    | some w => rw [hlk] at hk; simp at hk

theorem blockGood_branch_warn2 (c : Bool) (m : String) :
    blockGood (if c then vwarn m else vpure true) true := by
  cases c <;> simp [blockGood, vpure, vwarn]

theorem emailLoop_good (fp : String) (xs : List JVal) :
    blockGood (emailLoop fp xs) true := by
  induction xs with
  | nil => simpa [emailLoop] using blockGood_vpure_true
  | cons e es ih =>
    have h1 : blockGood
        (vexc (pyInStr "@" e) (fun b =>
          if b then vpure true
          else vwarn ("Invalid email format: " ++ pyStr e ++ " in " ++ fp))) true := by
      apply blockGood_vexc
      intro a _
      exact blockGood_branch_warn a _
    simpa [emailLoop] using blockGood_vseq h1 ih

theorem emailsCheck_good_obj (rkvs : List (String × JVal)) (fp : String) :
    blockGood (emailsCheck (.obj rkvs) fp)
      (match alookup "emails" rkvs with
       | none => true
       | some e => e.isArr) := by
  unfold emailsCheck
  apply blockGood_vexc
  intro a ha
  simp only [pyInStr, Except.ok.injEq] at ha
  subst ha
  by_cases hk : hasKeyL "emails" rkvs
  · rw [if_pos hk]
    apply blockGood_vexc
    intro e he
    simp only [pyGetItemStr] at he
    split at he
    next w hw =>
      injection he with he
      subst he
      rw [hw]
      cases w with
      | arr xs => simpa using emailLoop_good fp xs
      | null => simpa using blockGood_verr _
      | bool b => simpa using blockGood_verr _
      | num q => simpa using blockGood_verr _
      | str s => simpa using blockGood_verr _
      | obj l => simpa using blockGood_verr _
    next hw => exact absurd he (by simp)
  · rw [if_neg hk]
    simp only [hasKeyL, Option.isSome] at hk
    cases hlk : alookup "emails" rkvs with
    | none => simpa using blockGood_vpure_true
    | some w => rw [hlk] at hk; simp at hk

theorem suppressCheck_good_obj (okvs : List (String × JVal)) (fp : String) :
    blockGood (suppressCheck (.obj okvs) fp)
      (match alookup "suppressNotificationsMinutes" okvs with
       | none => true
       | some v => pyIsNumber v) := by
  unfold suppressCheck
  apply blockGood_vexc
  intro a ha
  simp only [pyInStr, Except.ok.injEq] at ha
  subst ha
  by_cases hk : hasKeyL "suppressNotificationsMinutes" okvs
  · rw [if_pos hk]
    apply blockGood_vexc
    intro v hv
    simp only [pyGetItemStr] at hv
    split at hv
    next w hw =>
      injection hv with hv
      subst hv
      rw [hw]
      apply blockGood_congr _ (blockGood_branch_neg (!pyIsNumber w) _)
      simp
    next hw => exact absurd hv (by simp)
  · rw [if_neg hk]
    simp only [hasKeyL, Option.isSome] at hk
    cases hlk : alookup "suppressNotificationsMinutes" okvs with
    | none => simpa using blockGood_vpure_true
    | some w => rw [hlk] at hk; simp at hk

theorem validateOutput_good (o : JVal) (fp : String) :
    blockGood (validateOutput o fp) (passOutputVal pyIsNumber o) := by
  unfold validateOutput
  apply blockGood_vexc
  intro hasRec hRec
  cases hasRec with
  | false =>
    rw [if_pos (by rfl)]
    apply blockGood_congr _ (blockGood_vwarn _)
    cases o with
    | obj okvs =>
      simp only [pyInStr, Except.ok.injEq] at hRec
      simp only [hasKeyL, Option.isSome] at hRec
      simp only [passOutputVal, objLookup]
      cases hlk : alookup "recipients" okvs with
      | none => rfl
      | some w => rw [hlk] at hRec; simp at hRec
    | str s => rfl
    | arr l => rfl
    | null => simp [pyInStr] at hRec
    | bool b => simp [pyInStr] at hRec
    | num q => simp [pyInStr] at hRec
  | true =>
    rw [if_neg (by simp)]
    apply blockGood_vexc
    intro r hr
    cases o with
    | null => simp [pyGetItemStr] at hr
    | bool b => simp [pyGetItemStr] at hr
    | num q => simp [pyGetItemStr] at hr
    | str s => simp [pyGetItemStr] at hr
    | arr l => simp [pyGetItemStr] at hr
    | obj okvs =>
      have hor : alookup "recipients" okvs = some r := by
        simp only [pyGetItemStr] at hr
        split at hr
        next w hw =>
          injection hr with hr
          rw [← hr]; exact hw
        next hw => exact absurd hr (by simp)
      apply blockGood_vexc
      intro he hhe
      cases r with
      | null => simp [truthyLenPos, pyGetOpt] at hhe
      | bool b => simp [truthyLenPos, pyGetOpt] at hhe
      | num q => simp [truthyLenPos, pyGetOpt] at hhe
      | str s => simp [truthyLenPos, pyGetOpt] at hhe
      | arr l => simp [truthyLenPos, pyGetOpt] at hhe
      | obj rkvs =>
        apply blockGood_vexc
        intro hn hhn
        have hgood := blockGood_vseq
          (blockGood_branch_warn2 (!he && !hn)
            ("No notification recipients (emails or endpoints) configured in " ++ fp))
          (blockGood_vseq (emailsCheck_good_obj rkvs fp) (suppressCheck_good_obj okvs fp))
        apply blockGood_congr _ hgood
        simp only [passOutputVal, objLookup, hor, Bool.true_and]

theorem outputBlock_good (kvs : List (String × JVal)) (fp : String) :
    blockGood (outputBlock (.obj kvs) fp) (passOutput pyIsNumber (.obj kvs)) := by
  unfold outputBlock
  apply blockGood_vexc
  intro a ha
  simp only [pyInStr, Except.ok.injEq] at ha
  subst ha
  by_cases hk : hasKeyL "output" kvs
  · rw [if_pos hk]
    apply blockGood_vexc
    intro o ho
    simp only [pyGetItemStr] at ho
    split at ho
    next w hw =>
      injection ho with ho
      subst ho
      apply blockGood_congr _ (validateOutput_good w fp)
      simp [passOutput, objLookup, hw]
    next hw => exact absurd ho (by simp)
  · rw [if_neg hk]
    apply blockGood_congr _ (blockGood_vwarn _)
    simp only [hasKeyL, Option.isSome] at hk
    simp only [passOutput, objLookup]
    cases hlk : alookup "output" kvs with
    | none => rfl
    | some w => rw [hlk] at hk; simp at hk

theorem queryPart_good (qd : JVal) (ref fp : String) :
    blockGood (queryPart qd ref fp) ((objLookup "query" qd).isSome) := by
  unfold queryPart
  apply blockGood_vexc
  intro b hb
  cases b with
  | false =>
    rw [if_pos (by rfl)]
    apply blockGood_congr _ (blockGood_verr _)
    cases qd with
    | obj okvs =>
      simp only [pyInStr, Except.ok.injEq] at hb
      simp only [hasKeyL, Option.isSome] at hb
      simp only [objLookup]
      cases hlk : alookup "query" okvs with
      | none => rfl
      | some w => rw [hlk] at hb; simp at hb
    | str s => rfl
    | arr l => rfl
    | null => simp [pyInStr] at hb
    | bool x => simp [pyInStr] at hb
    | num q => simp [pyInStr] at hb
  | true =>
    rw [if_neg (by simp)]
    apply blockGood_vexc
    intro q hq
    cases qd with
    | null => simp [pyGetItemStr] at hq
    | bool x => simp [pyGetItemStr] at hq
    | num n => simp [pyGetItemStr] at hq
    | str s => simp [pyGetItemStr] at hq
    | arr l => simp [pyGetItemStr] at hq
    | obj okvs =>
      have hoq : alookup "query" okvs = some q := by
        simp only [pyGetItemStr] at hq
        split at hq
        next w hw =>
          injection hq with hq
          rw [← hq]; exact hw
        next hw => exact absurd hq (by simp)
      apply blockGood_congr _ (blockGood_branch_warn2 (!pyTruthy q) _)
      simp [objLookup, hoq]

theorem aggPart_good (qd : JVal) (ref fp : String) :
    blockGood (aggPart qd ref fp)
      (match objLookup "aggregation" qd with
       | none => true
       | some a =>
         match objLookup "aggregationType" a with
         | none => true
         | some t => validAggTypes.any (fun s => pyEq t (.str s))) := by
  unfold aggPart
  apply blockGood_vexc
  intro b hb
  cases b with
  | false =>
    rw [if_neg (by simp)]
    apply blockGood_congr _ blockGood_vpure_true
    cases qd with
    | obj okvs =>
      simp only [pyInStr, Except.ok.injEq] at hb
      simp only [hasKeyL, Option.isSome] at hb
      simp only [objLookup]
      cases hlk : alookup "aggregation" okvs with
      | none => rfl
      | some w => rw [hlk] at hb; simp at hb
    | str s => rfl
    | arr l => rfl
    | null => simp [pyInStr] at hb
    | bool x => simp [pyInStr] at hb
    | num q => simp [pyInStr] at hb
  | true =>
    rw [if_pos (by rfl)]
    apply blockGood_vexc
    intro agg hagg
    cases qd with
    | null => simp [pyGetItemStr] at hagg
    | bool x => simp [pyGetItemStr] at hagg
    | num n => simp [pyGetItemStr] at hagg
    | str s => simp [pyGetItemStr] at hagg
    | arr l => simp [pyGetItemStr] at hagg
    | obj okvs =>
      have hoa : alookup "aggregation" okvs = some agg := by
        simp only [pyGetItemStr] at hagg
        split at hagg
        next w hw =>
          injection hagg with hagg
          rw [← hagg]; exact hw
        next hw => exact absurd hagg (by simp)
      apply blockGood_vexc
      intro b2 hb2
      cases b2 with
      | false =>
        rw [if_neg (by simp)]
        apply blockGood_congr _ blockGood_vpure_true
        simp only [objLookup, hoa]
        cases agg with
        | obj akvs =>
          simp only [pyInStr, Except.ok.injEq] at hb2
          simp only [hasKeyL, Option.isSome] at hb2
          simp only [objLookup]
          cases hlk : alookup "aggregationType" akvs with
          | none => rfl
          | some w => rw [hlk] at hb2; simp at hb2
        | str s => rfl
        | arr l => rfl
        | null => simp [pyInStr] at hb2
        | bool x => simp [pyInStr] at hb2
        | num q => simp [pyInStr] at hb2
      | true =>
        rw [if_pos (by rfl)]
        apply blockGood_vexc
        intro t ht
        cases agg with
        | null => simp [pyGetItemStr] at ht
        | bool x => simp [pyGetItemStr] at ht
        | num n => simp [pyGetItemStr] at ht
        | str s => simp [pyGetItemStr] at ht
        | arr l => simp [pyGetItemStr] at ht
        | obj akvs =>
          have hot : alookup "aggregationType" akvs = some t := by
            simp only [pyGetItemStr] at ht
            split at ht
            next w hw =>
              injection ht with ht
              rw [← ht]; exact hw
            next hw => exact absurd ht (by simp)
          apply blockGood_congr _
            (blockGood_branch (validAggTypes.any (fun s => pyEq t (.str s))) _)
          simp [objLookup, hoa, hot]

theorem filtersPart_good (qd : JVal) (ref fp : String) :
    blockGood (filtersPart qd ref fp)
      (match objLookup "filters" qd with
       | none => true
       | some f => f.isObj) := by
  unfold filtersPart
  apply blockGood_vexc
  intro b hb
  cases b with
  | false =>
    rw [if_neg (by simp)]
    apply blockGood_congr _ blockGood_vpure_true
    cases qd with
    | obj okvs =>
      simp only [pyInStr, Except.ok.injEq] at hb
      simp only [hasKeyL, Option.isSome] at hb
      simp only [objLookup]
      cases hlk : alookup "filters" okvs with
      | none => rfl
      | some w => rw [hlk] at hb; simp at hb
    | str s => rfl
    | arr l => rfl
    | null => simp [pyInStr] at hb
    | bool x => simp [pyInStr] at hb
    | num q => simp [pyInStr] at hb
  | true =>
    rw [if_pos (by rfl)]
    apply blockGood_vexc
    intro f hf
    cases qd with
    | null => simp [pyGetItemStr] at hf
    | bool x => simp [pyGetItemStr] at hf
    | num n => simp [pyGetItemStr] at hf
    | str s => simp [pyGetItemStr] at hf
    | arr l => simp [pyGetItemStr] at hf
    | obj okvs =>
      have hof : alookup "filters" okvs = some f := by
        simp only [pyGetItemStr] at hf
        split at hf
        next w hw =>
          injection hf with hf
          rw [← hf]; exact hw
        next hw => exact absurd hf (by simp)
      apply blockGood_congr _ (blockGood_branch_neg (!f.isObj) _)
      simp [objLookup, hof]

theorem groupByPart_good (qd : JVal) (ref fp : String) :
    blockGood (groupByPart qd ref fp)
      (match objLookup "groupBy" qd with
       | none => true
       | some g => g.isArr) := by
  unfold groupByPart
  apply blockGood_vexc
  intro b hb
  cases b with
  | false =>
    rw [if_neg (by simp)]
    apply blockGood_congr _ blockGood_vpure_true
    cases qd with
    | obj okvs =>
      simp only [pyInStr, Except.ok.injEq] at hb
      simp only [hasKeyL, Option.isSome] at hb
      simp only [objLookup]
      cases hlk : alookup "groupBy" okvs with
      | none => rfl
      | some w => rw [hlk] at hb; simp at hb
    | str s => rfl
    | arr l => rfl
    | null => simp [pyInStr] at hb
    | bool x => simp [pyInStr] at hb
    | num q => simp [pyInStr] at hb
  | true =>
    rw [if_pos (by rfl)]
    apply blockGood_vexc
    intro g hg
    cases qd with
    | null => simp [pyGetItemStr] at hg
    | bool x => simp [pyGetItemStr] at hg
    | num n => simp [pyGetItemStr] at hg
    | str s => simp [pyGetItemStr] at hg
    | arr l => simp [pyGetItemStr] at hg
    | obj okvs =>
      have hog : alookup "groupBy" okvs = some g := by
        simp only [pyGetItemStr] at hg
        split at hg
        next w hw =>
          injection hg with hg
          rw [← hg]; exact hw
        next hw => exact absurd hg (by simp)
      apply blockGood_congr _ (blockGood_branch_neg (!g.isArr) _)
      simp [objLookup, hog]

theorem validateQueryDefinition_good (qd : JVal) (ref fp : String) :
    blockGood (validateQueryDefinition qd ref fp) (passQd qd) := by
  have h := blockGood_vseq (queryPart_good qd ref fp)
    (blockGood_vseq (aggPart_good qd ref fp)
      (blockGood_vseq (filtersPart_good qd ref fp) (groupByPart_good qd ref fp)))
  apply blockGood_congr _ h
  simp [passQd, Bool.and_assoc]

theorem tiersLoop_good (ref fp : String) (kvs : List (String × JVal)) :
    blockGood (tiersLoop ref fp kvs)
      (kvs.all (fun kv => validSevs.contains kv.1 && pyIsNumber kv.2)) := by
  induction kvs with
  | nil => simpa [tiersLoop] using blockGood_vpure_true
  | cons p rest ih =>
    obtain ⟨sev, thr⟩ := p
    have h1 := blockGood_vseq
      (blockGood_branch (validSevs.contains sev)
        ("Invalid severity '" ++ sev ++ "' in " ++ ref ++ ".trigger of " ++ fp ++
          ". Must be one of: " ++ joinComma validSevs))
      (blockGood_branch_neg (!pyIsNumber thr)
        ("Threshold for " ++ sev ++ " must be a number in " ++ ref ++ ".trigger of " ++ fp))
    have h2 := blockGood_vseq h1 ih
    apply blockGood_congr _ h2
    simp [tiersLoop, List.all_cons, Bool.and_assoc]

theorem operatorPart_good (t : JVal) (ref fp : String) :
    blockGood (operatorPart t ref fp)
      (match objLookup "operator" t with
       | none => false
       | some op => validOps.any (fun s => pyEq op (.str s))) := by
  unfold operatorPart
  apply blockGood_vexc
  intro b hb
  cases b with
  | false =>
    rw [if_pos (by rfl)]
    apply blockGood_congr _ (blockGood_verr _)
    cases t with
    | obj okvs =>
      simp only [pyInStr, Except.ok.injEq] at hb
      simp only [hasKeyL, Option.isSome] at hb
      simp only [objLookup]
      cases hlk : alookup "operator" okvs with
      | none => rfl
      | some w => rw [hlk] at hb; simp at hb
    | str s => rfl
    | arr l => rfl
    | null => simp [pyInStr] at hb
    | bool x => simp [pyInStr] at hb
    | num q => simp [pyInStr] at hb
  | true =>
    rw [if_neg (by simp)]
    apply blockGood_vexc
    intro op hop
    cases t with
    | null => simp [pyGetItemStr] at hop
    | bool x => simp [pyGetItemStr] at hop
    | num n => simp [pyGetItemStr] at hop
    | str s => simp [pyGetItemStr] at hop
    | arr l => simp [pyGetItemStr] at hop
    | obj okvs =>
      have hoo : alookup "operator" okvs = some op := by
        simp only [pyGetItemStr] at hop
        split at hop
        next w hw =>
          injection hop with hop
          rw [← hop]; exact hw
        next hw => exact absurd hop (by simp)
      apply blockGood_congr _
        (blockGood_branch (validOps.any (fun s => pyEq op (.str s))) _)
      simp [objLookup, hoo]

theorem tiersPart_good (t : JVal) (ref fp : String) :
    blockGood (tiersPart t ref fp)
      (match objLookup "severityThresholdTiers" t with
       | some (.obj tiers) => tiers.all (fun kv => validSevs.contains kv.1 && pyIsNumber kv.2)
       | some _ => false
       | none => false) := by
  unfold tiersPart
  apply blockGood_vexc
  intro b hb
  cases b with
  | false =>
    rw [if_pos (by rfl)]
    apply blockGood_congr _ (blockGood_verr _)
    cases t with
    | obj okvs =>
      simp only [pyInStr, Except.ok.injEq] at hb
      simp only [hasKeyL, Option.isSome] at hb
      simp only [objLookup]
      cases hlk : alookup "severityThresholdTiers" okvs with
      | none => rfl
      | some w => rw [hlk] at hb; simp at hb
    | str s => rfl
    | arr l => rfl
    | null => simp [pyInStr] at hb
    | bool x => simp [pyInStr] at hb
    | num q => simp [pyInStr] at hb
  | true =>
    rw [if_neg (by simp)]
    apply blockGood_vexc
    intro tiers htiers
    cases t with
    | null => simp [pyGetItemStr] at htiers
    | bool x => simp [pyGetItemStr] at htiers
    | num n => simp [pyGetItemStr] at htiers
    | str s => simp [pyGetItemStr] at htiers
    | arr l => simp [pyGetItemStr] at htiers
    | obj okvs =>
      have hot : alookup "severityThresholdTiers" okvs = some tiers := by
        simp only [pyGetItemStr] at htiers
        split at htiers
        next w hw =>
          injection htiers with htiers
          rw [← htiers]; exact hw
        next hw => exact absurd htiers (by simp)
      cases tiers with
      | obj tkvs =>
        apply blockGood_congr _ (tiersLoop_good ref fp tkvs)
        simp [objLookup, hot]
      | null =>
        apply blockGood_congr _ (blockGood_verr _)
        simp [objLookup, hot]
      | bool x =>
        apply blockGood_congr _ (blockGood_verr _)
        simp [objLookup, hot]
      | num q =>
        apply blockGood_congr _ (blockGood_verr _)
        simp [objLookup, hot]
      | str s =>
        apply blockGood_congr _ (blockGood_verr _)
        simp [objLookup, hot]
      | arr l =>
        apply blockGood_congr _ (blockGood_verr _)
        simp [objLookup, hot]

theorem validateTrigger_good (t : JVal) (ref fp : String) :
    blockGood (validateTrigger t ref fp) (passTrig pyIsNumber t) := by
  have h := blockGood_vseq (operatorPart_good t ref fp) (tiersPart_good t ref fp)
  apply blockGood_congr _ h
  simp [passTrig]

theorem validateSubcomponent_good (c : JVal) (idx : Nat) (fp : String) :
    blockGood (validateSubcomponent c idx fp) (passComponent pyIsNumber c) := by
  unfold validateSubcomponent
  have hqd : blockGood
      (vexc (pyInStr "queryDefinition" c) (fun b =>
        if !b then
          verr ("Missing 'queryDefinition' in subComponents[" ++ toString idx ++ "] of " ++ fp)
        else
          vexc (pyGetItemStr c "queryDefinition") (fun qd =>
            validateQueryDefinition qd ("subComponents[" ++ toString idx ++ "]") fp)))
      (match objLookup "queryDefinition" c with
       | none => false
       | some qd => passQd qd) := by
    apply blockGood_vexc
    intro b hb
    cases b with
    | false =>
      rw [if_pos (by rfl)]
      apply blockGood_congr _ (blockGood_verr _)
      cases c with
      | obj okvs =>
        simp only [pyInStr, Except.ok.injEq] at hb
        simp only [hasKeyL, Option.isSome] at hb
        simp only [objLookup]
        cases hlk : alookup "queryDefinition" okvs with
        | none => rfl
        | some w => rw [hlk] at hb; simp at hb
      | str s => rfl
      | arr l => rfl
      | null => simp [pyInStr] at hb
      | bool x => simp [pyInStr] at hb
      | num q => simp [pyInStr] at hb
    | true =>
      rw [if_neg (by simp)]
      apply blockGood_vexc
      intro qd hq
      cases c with
      | null => simp [pyGetItemStr] at hq
      | bool x => simp [pyGetItemStr] at hq
      | num n => simp [pyGetItemStr] at hq
      | str s => simp [pyGetItemStr] at hq
      | arr l => simp [pyGetItemStr] at hq
      | obj okvs =>
        have hoq : alookup "queryDefinition" okvs = some qd := by
          simp only [pyGetItemStr] at hq
          split at hq
          next w hw =>
            injection hq with hq
            rw [← hq]; exact hw
          next hw => exact absurd hq (by simp)
        apply blockGood_congr _
          (validateQueryDefinition_good qd ("subComponents[" ++ toString idx ++ "]") fp)
        simp [objLookup, hoq]
  have htr : blockGood
      (vexc (pyInStr "trigger" c) (fun b =>
        if !b then
          verr ("Missing 'trigger' in subComponents[" ++ toString idx ++ "] of " ++ fp)
        else
          vexc (pyGetItemStr c "trigger") (fun t =>
            validateTrigger t ("subComponents[" ++ toString idx ++ "]") fp)))
      (match objLookup "trigger" c with
       | none => false
       | some t => passTrig pyIsNumber t) := by
    apply blockGood_vexc
    intro b hb
    cases b with
    | false =>
      rw [if_pos (by rfl)]
      apply blockGood_congr _ (blockGood_verr _)
      cases c with
      | obj okvs =>
        simp only [pyInStr, Except.ok.injEq] at hb
        simp only [hasKeyL, Option.isSome] at hb
        simp only [objLookup]
        cases hlk : alookup "trigger" okvs with
        | none => rfl
        | some w => rw [hlk] at hb; simp at hb
      | str s => rfl
      | arr l => rfl
      | null => simp [pyInStr] at hb
      | bool x => simp [pyInStr] at hb
      | num q => simp [pyInStr] at hb
    | true =>
      rw [if_neg (by simp)]
      apply blockGood_vexc
      intro t ht
      cases c with
      | null => simp [pyGetItemStr] at ht
      | bool x => simp [pyGetItemStr] at ht
      | num n => simp [pyGetItemStr] at ht
      | str s => simp [pyGetItemStr] at ht
      | arr l => simp [pyGetItemStr] at ht
      | obj okvs =>
        have hot : alookup "trigger" okvs = some t := by
          simp only [pyGetItemStr] at ht
          split at ht
          next w hw =>
            injection ht with ht
            rw [← ht]; exact hw
          next hw => exact absurd ht (by simp)
        apply blockGood_congr _
          (validateTrigger_good t ("subComponents[" ++ toString idx ++ "]") fp)
        simp [objLookup, hot]
  have h := blockGood_vseq hqd htr
  apply blockGood_congr _ h
  simp [passComponent]

theorem subLoop_good (fp : String) (xs : List JVal) (idx : Nat) :
    blockGood (subLoop fp xs idx) (xs.all (passComponent pyIsNumber)) := by
  induction xs generalizing idx with
  | nil => simpa [subLoop] using blockGood_vpure_true
  | cons c cs ih =>
    have h := blockGood_vseq (validateSubcomponent_good c idx fp) (ih (idx + 1))
    apply blockGood_congr _ h
    simp [subLoop, List.all_cons]

theorem subsBlock_good (kvs : List (String × JVal)) (fp : String) :
    blockGood (subsBlock (.obj kvs) fp) (passSubs pyIsNumber (.obj kvs)) := by
  unfold subsBlock
  apply blockGood_vexc
  intro b hb
  simp only [pyInStr, Except.ok.injEq] at hb
  subst hb
  by_cases hk : hasKeyL "subComponents" kvs
  · rw [if_pos hk]
    apply blockGood_vexc
    intro sc hsc
    simp only [pyGetItemStr] at hsc
    split at hsc
    next w hw =>
      injection hsc with hsc
      subst hsc
      cases w with
      | arr xs =>
        show blockGood
          (if xs.isEmpty = true then verr ("'subComponents' cannot be empty in " ++ fp)
           else subLoop fp xs 0) (passSubs pyIsNumber (.obj kvs))
        by_cases he : xs.isEmpty = true
        · rw [if_pos he]
          apply blockGood_congr _ (blockGood_verr _)
          simp [passSubs, objLookup, hw, he]
        · rw [if_neg he]
          apply blockGood_congr _ (subLoop_good fp xs 0)
          simp [passSubs, objLookup, hw, he]
      | null =>
        apply blockGood_congr _ (blockGood_verr _)
        simp [passSubs, objLookup, hw]
      | bool x =>
        apply blockGood_congr _ (blockGood_verr _)
        simp [passSubs, objLookup, hw]
      | num q =>
        apply blockGood_congr _ (blockGood_verr _)
        simp [passSubs, objLookup, hw]
      | str s =>
        apply blockGood_congr _ (blockGood_verr _)
        simp [passSubs, objLookup, hw]
      | obj l =>
        apply blockGood_congr _ (blockGood_verr _)
        simp [passSubs, objLookup, hw]
    next hw => exact absurd hsc (by simp)
  · rw [if_neg hk]
    apply blockGood_congr _ blockGood_vpure_true
    simp only [hasKeyL, Option.isSome] at hk
    simp only [passSubs, objLookup]
    cases hlk : alookup "subComponents" kvs with
    | none => rfl
    | some w => rw [hlk] at hk; simp at hk

theorem corrOpLoop_good (fp : String) (xs : List JVal) :
    blockGood (corrOpLoop fp xs)
      (xs.all (fun op => ["AND", "OR"].any (fun s => pyEq op (.str s)))) := by
  induction xs with
  | nil => simpa [corrOpLoop] using blockGood_vpure_true
  | cons op rest ih =>
    have h := blockGood_vseq
      (blockGood_branch (["AND", "OR"].any (fun s => pyEq op (.str s)))
        ("Invalid correlation operator '" ++ pyStr op ++ "' in " ++ fp ++
          ". Must be one of: AND, OR"))
      ih
    apply blockGood_congr _ h
    simp [corrOpLoop, List.all_cons]

theorem corrOpsPart_good (c : JVal) (fp : String) :
    blockGood (corrOpsPart c fp)
      (match objLookup "correlationOperators" c with
       | none => true
       | some (.arr xs) => xs.all (fun op => ["AND", "OR"].any (fun s => pyEq op (.str s)))
       | some _ => false) := by
  unfold corrOpsPart
  apply blockGood_vexc
  intro b hb
  cases b with
  | false =>
    rw [if_neg (by simp)]
    apply blockGood_congr _ blockGood_vpure_true
    cases c with
    | obj okvs =>
      simp only [pyInStr, Except.ok.injEq] at hb
      simp only [hasKeyL, Option.isSome] at hb
      simp only [objLookup]
      cases hlk : alookup "correlationOperators" okvs with
      | none => rfl
      | some w => rw [hlk] at hb; simp at hb
    | str s => rfl
    | arr l => rfl
    | null => simp [pyInStr] at hb
    | bool x => simp [pyInStr] at hb
    | num q => simp [pyInStr] at hb
  | true =>
    rw [if_pos (by rfl)]
    apply blockGood_vexc
    intro v hv
    cases c with
    | null => simp [pyGetItemStr] at hv
    | bool x => simp [pyGetItemStr] at hv
    | num n => simp [pyGetItemStr] at hv
    | str s => simp [pyGetItemStr] at hv
    | arr l => simp [pyGetItemStr] at hv
    | obj okvs =>
      have hov : alookup "correlationOperators" okvs = some v := by
        simp only [pyGetItemStr] at hv
        split at hv
        next w hw =>
          injection hv with hv
          rw [← hv]; exact hw
        next hw => exact absurd hv (by simp)
      cases v with
      | arr xs =>
        apply blockGood_congr _ (corrOpLoop_good fp xs)
        simp [objLookup, hov]
      | null =>
        apply blockGood_congr _ (blockGood_verr _)
        simp [objLookup, hov]
      | bool x =>
        apply blockGood_congr _ (blockGood_verr _)
        simp [objLookup, hov]
      | num q =>
        apply blockGood_congr _ (blockGood_verr _)
        simp [objLookup, hov]
      | str s =>
        apply blockGood_congr _ (blockGood_verr _)
        simp [objLookup, hov]
      | obj l =>
        apply blockGood_congr _ (blockGood_verr _)
        simp [objLookup, hov]

theorem joinsPart_good (c : JVal) (fp : String) :
    blockGood (joinsPart c fp)
      (match objLookup "joins" c with
       | none => true
       | some v => v.isArr) := by
  unfold joinsPart
  apply blockGood_vexc
  intro b hb
  cases b with
  | false =>
    rw [if_neg (by simp)]
    apply blockGood_congr _ blockGood_vpure_true
    cases c with
    | obj okvs =>
      simp only [pyInStr, Except.ok.injEq] at hb
      simp only [hasKeyL, Option.isSome] at hb
      simp only [objLookup]
      cases hlk : alookup "joins" okvs with
      | none => rfl
      | some w => rw [hlk] at hb; simp at hb
    | str s => rfl
    | arr l => rfl
    | null => simp [pyInStr] at hb
    | bool x => simp [pyInStr] at hb
    | num q => simp [pyInStr] at hb
  | true =>
    rw [if_pos (by rfl)]
    apply blockGood_vexc
    intro v hv
    cases c with
    | null => simp [pyGetItemStr] at hv
    | bool x => simp [pyGetItemStr] at hv
    | num n => simp [pyGetItemStr] at hv
    | str s => simp [pyGetItemStr] at hv
    | arr l => simp [pyGetItemStr] at hv
    | obj okvs =>
      have hov : alookup "joins" okvs = some v := by
        simp only [pyGetItemStr] at hv
        split at hv
        next w hw =>
          injection hv with hv
          rw [← hv]; exact hw
        next hw => exact absurd hv (by simp)
      apply blockGood_congr _ (blockGood_branch_neg (!v.isArr) _)
      simp [objLookup, hov]

theorem corrBlock_good (kvs : List (String × JVal)) (fp : String) :
    blockGood (corrBlock (.obj kvs) fp) (passCorr (.obj kvs)) := by
  unfold corrBlock
  apply blockGood_vexc
  intro b hb
  simp only [pyInStr, Except.ok.injEq] at hb
  subst hb
  by_cases hk : hasKeyL "correlations" kvs
  · rw [if_pos hk]
    apply blockGood_vexc
    intro c hc
    simp only [pyGetItemStr] at hc
    split at hc
    next w hw =>
      injection hc with hc
      subst hc
      have h := blockGood_vseq (corrOpsPart_good w fp) (joinsPart_good w fp)
      apply blockGood_congr _ (blockGood_congr rfl h)
      simp [passCorr, objLookup, hw, validateCorrelations]
    next hw => exact absurd hc (by simp)
  · rw [if_neg hk]
    apply blockGood_congr _ blockGood_vpure_true
    simp only [hasKeyL, Option.isSome] at hk
    simp only [passCorr, objLookup]
    cases hlk : alookup "correlations" kvs with
    | none => rfl
    | some w => rw [hlk] at hk; simp at hk

theorem tagsBlock_good (kvs : List (String × JVal)) (fp : String) :
    blockGood (tagsBlock (.obj kvs) fp) (passTags (.obj kvs)) := by
  unfold tagsBlock
  apply blockGood_vexc
  intro b hb
  simp only [pyInStr, Except.ok.injEq] at hb
  subst hb
  by_cases hk : hasKeyL "tags" kvs
  · rw [if_pos hk]
    apply blockGood_vexc
    intro v hv
    simp only [pyGetItemStr] at hv
    split at hv
    next w hw =>
      injection hv with hv
      subst hv
      apply blockGood_congr _ (blockGood_branch_neg (!w.isArr) _)
      simp [passTags, objLookup, hw]
    next hw => exact absurd hv (by simp)
  · rw [if_neg hk]
    apply blockGood_congr _ blockGood_vpure_true
    simp only [hasKeyL, Option.isSome] at hk
    simp only [passTags, objLookup]
    cases hlk : alookup "tags" kvs with
    | none => rfl
    | some w => rw [hlk] at hk; simp at hk

theorem descPart_good (rule : JVal) (fp : String) :
    blockGood (descPart rule fp) true := by
  unfold descPart
  apply blockGood_vexc
  intro b hb
  cases b with
  | false => exact blockGood_vwarn _
  | true =>
    rw [if_neg (by simp)]
    apply blockGood_vexc
    intro v hv
    exact blockGood_branch_warn2 (!pyTruthy v) _

theorem tagsRecPart_good (rule : JVal) (fp : String) :
    blockGood (tagsRecPart rule fp) true := by
  unfold tagsRecPart
  apply blockGood_vexc
  intro b hb
  cases b with
  | false => exact blockGood_vwarn _
  | true =>
    rw [if_neg (by simp)]
    apply blockGood_vexc
    intro v hv
    exact blockGood_branch_warn2 (!pyTruthy v) _

theorem recBlock_good (rule : JVal) (fp : String) :
    blockGood (recBlock rule fp) true := by
  have h := blockGood_vseq (descPart_good rule fp) (tagsRecPart_good rule fp)
  simpa [recBlock] using h

theorem roLoop_good (rule : JVal) (fp : String) (fs : List String) :
    blockGood (roLoop rule fp fs) true := by
  induction fs with
  | nil => simpa [roLoop] using blockGood_vpure_true
  | cons f fs ih =>
    have h1 : blockGood
        (vexc (pyInStr f rule) (fun b =>
          if b then
            vwarn ("Read-only field '" ++ f ++ "' found in " ++ fp ++
              " - this will be ignored on creation")
          else vpure true)) true := by
      apply blockGood_vexc
      intro a _
      exact blockGood_branch_warn2 a _
    simpa [roLoop] using blockGood_vseq h1 ih

theorem roBlock_good (rule : JVal) (fp : String) :
    blockGood (roBlock rule fp) true :=
  roLoop_good rule fp readonlyFields

/-- The whole validator run over a mapping document relates to the §4.1
checks: if the run completes, its errors are empty exactly when every
check passes, and its boolean is true exactly when no error was
appended. -/
theorem validateSecurityRule_good (kvs : List (String × JVal)) (fp : String) :
    blockGood (validateSecurityRule (.obj kvs) fp)
      (allChecksPass pyIsNumber (.obj kvs)) := by
  have h := blockGood_vseq (requiredBlock_good kvs fp)
    (blockGood_vseq (titleBlock_good kvs fp)
      (blockGood_vseq (enabledBlock_good kvs fp)
        (blockGood_vseq (stfmBlock_good kvs fp)
          (blockGood_vseq (outputBlock_good kvs fp)
            (blockGood_vseq (subsBlock_good kvs fp)
              (blockGood_vseq (corrBlock_good kvs fp)
                (blockGood_vseq (tagsBlock_good kvs fp)
                  (blockGood_vseq (recBlock_good (.obj kvs) fp)
                    (roBlock_good (.obj kvs) fp)))))))))
  apply blockGood_congr _ h
  simp [allChecksPass, Bool.and_assoc]

/-- C8 amended: over mapping documents on which the validator completes
without raising, the collected errors are empty exactly when every
required-field, type/shape and closed-set check of §4.1 passes — with
"numeric" read as Python's `isinstance(v, (int, float))`, which accepts
booleans — and the returned boolean is true exactly when no error was
appended (warnings play no part). -/
theorem c8_errors_iff_valid_amended (kvs : List (String × JVal)) (fp : String)
    (f : Findings) (h : validateSecurityRule (.obj kvs) fp = .ok f) :
    (f.valid = true ↔ f.errors = []) ∧
    (f.errors = [] ↔ allChecksPass pyIsNumber (.obj kvs) = true) := by
  have hg := validateSecurityRule_good kvs fp
  rw [h] at hg
  exact ⟨hg.2, hg.1⟩

/-- C8 amended witness: the amended theorem applied to a concrete valid
document. -/
theorem c8_errors_iff_valid_amended_witness :
    ((true = true ↔ ([] : List String) = []) ∧
     (([] : List String) = [] ↔ allChecksPass pyIsNumber (.obj
       [("title", .str "t"), ("enabled", .bool true),
        ("searchTimeFrameMinutes", .num 5),
        ("subComponents", .arr [.obj
          [("queryDefinition", .obj [("query", .str "q")]),
           ("trigger", .obj [("operator", .str "EQUALS"),
             ("severityThresholdTiers", .obj [("HIGH", .num 1)])])]])]) = true)) := by
  have h := c8_errors_iff_valid_amended
    [("title", .str "t"), ("enabled", .bool true),
     ("searchTimeFrameMinutes", .num 5),
     ("subComponents", .arr [.obj
       [("queryDefinition", .obj [("query", .str "q")]),
        ("trigger", .obj [("operator", .str "EQUALS"),
          ("severityThresholdTiers", .obj [("HIGH", .num 1)])])]])]
    "rules.json"
    ⟨[], ["Missing 'output' field in rules.json - rule won't send notifications",
          "Missing or empty 'description' in rules.json",
          "No tags defined in rules.json - consider adding tags for organization"], true⟩
    rfl
  exact h

/-- C8 counterexample: a document whose `searchTimeFrameMinutes` is the
boolean `true` completes validation with an empty error list and a true
boolean (Python's `isinstance(True, (int, float))` holds and `True <= 0`
is false), yet under the specification's data model — where a boolean is
not a number, so `searchTimeFrameMinutes` is not a "positive number" —
the document is not schema-valid.  The claimed equivalence between empty
errors and schema validity therefore fails on this document. -/
theorem c8_errors_iff_valid_counterexample :
    validateSecurityRule (.obj
      [("title", .str "t"), ("enabled", .bool true),
       ("searchTimeFrameMinutes", .bool true),
       ("subComponents", .arr [.obj
         [("queryDefinition", .obj [("query", .str "q")]),
          ("trigger", .obj [("operator", .str "EQUALS"),
            ("severityThresholdTiers", .obj [("HIGH", .num 1)])])]])]) "rules.json" =
      .ok ⟨[], ["Missing 'output' field in rules.json - rule won't send notifications",
                "Missing or empty 'description' in rules.json",
                "No tags defined in rules.json - consider adding tags for organization"],
           true⟩ ∧
    allChecksPass JVal.isNum (.obj
      [("title", .str "t"), ("enabled", .bool true),
       ("searchTimeFrameMinutes", .bool true),
       ("subComponents", .arr [.obj
         [("queryDefinition", .obj [("query", .str "q")]),
          ("trigger", .obj [("operator", .str "EQUALS"),
            ("severityThresholdTiers", .obj [("HIGH", .num 1)])])]])]) = false :=
  ⟨rfl, rfl⟩

/-- C2: the validator is claimed never to raise, but on a document whose
`output.recipients.emails` holds a non-string element the email-format
check `'@' not in email` raises TypeError mid-run (the specification's
§4.1/§7 guarantee that findings are returned as data, never as raised
faults, is the clear intent; this input shows the code slipping). -/
theorem c2_validator_raises :
    validateSecurityRule (.obj [("output", .obj [("recipients",
        .obj [("emails", .arr [.num 5])])])]) "rules.json" =
      .exn (.typeError "argument of type 'int' is not iterable")
        ["Missing required field 'title' in rules.json",
         "Missing required field 'enabled' in rules.json",
         "Missing required field 'searchTimeFrameMinutes' in rules.json",
         "Missing required field 'subComponents' in rules.json"] [] :=
  rfl

/-! ### C4: the two `searchTimeFrameMinutes` findings are mutually exclusive -/

/-- A finding that starts with the eight characters `'searchT` — true of
the two `searchTimeFrameMinutes` errors and of no other finding the
validator can produce. -/
def stfmTag (m : String) : Bool := m.data.take 8 == "'searchT".data

theorem take_append_left (n : Nat) (a b : String) (h : n ≤ a.data.length) :
    (a ++ b).data.take n = a.data.take n := by
  rw [String.data_append]
  exact List.take_append_of_le_length h

theorem stfmTag_app (a b : String) (h : 8 ≤ a.data.length) :
    stfmTag (a ++ b) = stfmTag a := by
  unfold stfmTag
  rw [take_append_left 8 a b h]

theorem stfmTag_ra (lit rest : String) (h8 : 8 ≤ lit.data.length)
    (hne : stfmTag lit = false) : stfmTag (lit ++ rest) = false := by
  rw [stfmTag_app lit rest h8]
  exact hne

theorem stfmTag_msgNum (fp : String) : stfmTag (msgStfmNum fp) = true := by
  unfold msgStfmNum stfmTag
  rw [take_append_left 8 _ _ (by decide)]
  decide

theorem stfmTag_msgPos (fp : String) : stfmTag (msgStfmPos fp) = true := by
  unfold msgStfmPos stfmTag
  rw [take_append_left 8 _ _ (by decide)]
  decide

theorem msgStfm_ne (fp : String) : msgStfmNum fp ≠ msgStfmPos fp := by
  intro h
  have h34 := congrArg (fun s => s.data.take 34) h
  simp only [msgStfmNum, msgStfmPos] at h34
  rw [take_append_left 34 _ _ (by decide), take_append_left 34 _ _ (by decide)] at h34
  exact absurd h34 (by decide)

/-- No finding of this fragment carries the `'searchT` tag. -/
def noTag (out : VOut) : Prop := ∀ m ∈ errsOf out, stfmTag m = false

theorem noTag_vseq {a b : VOut} (ha : noTag a) (hb : noTag b) : noTag (vseq a b) := by
  cases a with
  | exn e es ws => exact ha
  | ok fa =>
    cases b with
    | ok fb =>
      intro m hm
      rcases List.mem_append.mp hm with h | h
      · exact ha m h
      · exact hb m h
    | exn e es ws =>
      intro m hm
      rcases List.mem_append.mp hm with h | h
      · exact ha m h
      · exact hb m h

theorem noTag_vexc {α : Type} {x : Except PyErr α} {k : α → VOut}
    (hk : ∀ a : α, noTag (k a)) : noTag (vexc x k) := by
  cases x with
  | error e => intro m hm; simp [vexc, errsOf] at hm
  | ok a => exact hk a

theorem noTag_vpure (b : Bool) : noTag (vpure b) := by
  intro m hm; simp [vpure, errsOf] at hm

theorem noTag_vwarn (w : String) : noTag (vwarn w) := by
  intro m hm; simp [vwarn, errsOf] at hm

theorem noTag_verr (msg : String) (h : stfmTag msg = false) : noTag (verr msg) := by
  intro m hm
  simp [verr, errsOf] at hm
  subst hm
  exact h

theorem noTag_if (c : Bool) {x y : VOut} (hx : noTag x) (hy : noTag y) :
    noTag (if c then x else y) := by
  cases c
  · simpa using hy
  · simpa using hx

theorem noTag_requiredLoop (rule : JVal) (fp : String) (fs : List String) :
    noTag (requiredLoop rule fp fs) := by
  induction fs with
  | nil => exact noTag_vpure true
  | cons f fs ih =>
    apply noTag_vseq _ ih
    apply noTag_vexc
    intro b
    apply noTag_if b (noTag_vpure true)
    apply noTag_verr
    simp only [String.append_assoc]
    exact stfmTag_ra "Missing required field '" _ (by decide) (by decide)

theorem noTag_requiredBlock (rule : JVal) (fp : String) : noTag (requiredBlock rule fp) :=
  noTag_requiredLoop rule fp requiredFieldsList

theorem noTag_titleBlock (rule : JVal) (fp : String) : noTag (titleBlock rule fp) := by
  unfold titleBlock
  apply noTag_vexc
  intro b
  apply noTag_if b _ (noTag_vpure true)
  apply noTag_vexc
  intro t
  apply noTag_if _ _ (noTag_vpure true)
  exact noTag_verr _ (stfmTag_ra "'title' must be a non-empty string in " _ (by decide) (by decide))

theorem noTag_enabledBlock (rule : JVal) (fp : String) : noTag (enabledBlock rule fp) := by
  unfold enabledBlock
  apply noTag_vexc
  intro b
  apply noTag_if b _ (noTag_vpure true)
  apply noTag_vexc
  intro v
  apply noTag_if _ _ (noTag_vpure true)
  exact noTag_verr _ (stfmTag_ra "'enabled' must be a boolean in " _ (by decide) (by decide))

theorem noTag_emailLoop (fp : String) (xs : List JVal) : noTag (emailLoop fp xs) := by
  induction xs with
  | nil => exact noTag_vpure true
  | cons e es ih =>
    apply noTag_vseq _ ih
    apply noTag_vexc
    intro b
    exact noTag_if b (noTag_vpure true) (noTag_vwarn _)

theorem noTag_emailsCheck (r : JVal) (fp : String) : noTag (emailsCheck r fp) := by
  unfold emailsCheck
  apply noTag_vexc
  intro b
  apply noTag_if b _ (noTag_vpure true)
  apply noTag_vexc
  intro e
  cases e with
  | arr xs => exact noTag_emailLoop fp xs
  | null => exact noTag_verr _ (stfmTag_ra "'emails' must be a list in " _ (by decide) (by decide))
  | bool x => exact noTag_verr _ (stfmTag_ra "'emails' must be a list in " _ (by decide) (by decide))
  | num q => exact noTag_verr _ (stfmTag_ra "'emails' must be a list in " _ (by decide) (by decide))
  | str s => exact noTag_verr _ (stfmTag_ra "'emails' must be a list in " _ (by decide) (by decide))
  | obj l => exact noTag_verr _ (stfmTag_ra "'emails' must be a list in " _ (by decide) (by decide))

theorem noTag_suppressCheck (o : JVal) (fp : String) : noTag (suppressCheck o fp) := by
  unfold suppressCheck
  apply noTag_vexc
  intro b
  apply noTag_if b _ (noTag_vwarn _)
  apply noTag_vexc
  intro v
  apply noTag_if _ _ (noTag_vpure true)
  exact noTag_verr _
    (stfmTag_ra "'suppressNotificationsMinutes' must be a number in " _ (by decide) (by decide))

theorem noTag_validateOutput (o : JVal) (fp : String) : noTag (validateOutput o fp) := by
  unfold validateOutput
  apply noTag_vexc
  intro hasRec
  apply noTag_if _ (noTag_vwarn _)
  apply noTag_vexc
  intro r
  apply noTag_vexc
  intro he
  apply noTag_vexc
  intro hn
  apply noTag_vseq (noTag_if _ (noTag_vwarn _) (noTag_vpure true))
  exact noTag_vseq (noTag_emailsCheck r fp) (noTag_suppressCheck o fp)

theorem noTag_outputBlock (rule : JVal) (fp : String) : noTag (outputBlock rule fp) := by
  unfold outputBlock
  apply noTag_vexc
  intro b
  apply noTag_if b _ (noTag_vwarn _)
  apply noTag_vexc
  intro o
  exact noTag_validateOutput o fp

theorem noTag_queryPart (qd : JVal) (ref fp : String) : noTag (queryPart qd ref fp) := by
  unfold queryPart
  apply noTag_vexc
  intro b
  apply noTag_if _ (noTag_verr _ (by
    simp only [String.append_assoc]
    exact stfmTag_ra "Missing 'query' in " _ (by decide) (by decide)))
  apply noTag_vexc
  intro q
  exact noTag_if _ (noTag_vwarn _) (noTag_vpure true)

theorem noTag_aggPart (qd : JVal) (ref fp : String) : noTag (aggPart qd ref fp) := by
  unfold aggPart
  apply noTag_vexc
  intro b
  apply noTag_if b _ (noTag_vpure true)
  apply noTag_vexc
  intro agg
  apply noTag_vexc
  intro b2
  apply noTag_if b2 _ (noTag_vpure true)
  apply noTag_vexc
  intro t
  apply noTag_if _ (noTag_vpure true)
  apply noTag_verr
  simp only [String.append_assoc]
  exact stfmTag_ra "Invalid aggregationType '" _ (by decide) (by decide)

theorem noTag_filtersPart (qd : JVal) (ref fp : String) : noTag (filtersPart qd ref fp) := by
  unfold filtersPart
  apply noTag_vexc
  intro b
  apply noTag_if b _ (noTag_vpure true)
  apply noTag_vexc
  intro f
  apply noTag_if _ _ (noTag_vpure true)
  apply noTag_verr
  simp only [String.append_assoc]
  exact stfmTag_ra "'filters' must be an object in " _ (by decide) (by decide)

theorem noTag_groupByPart (qd : JVal) (ref fp : String) : noTag (groupByPart qd ref fp) := by
  unfold groupByPart
  apply noTag_vexc
  intro b
  apply noTag_if b _ (noTag_vpure true)
  apply noTag_vexc
  intro g
  apply noTag_if _ _ (noTag_vpure true)
  apply noTag_verr
  simp only [String.append_assoc]
  exact stfmTag_ra "'groupBy' must be a list in " _ (by decide) (by decide)

theorem noTag_validateQueryDefinition (qd : JVal) (ref fp : String) :
    noTag (validateQueryDefinition qd ref fp) :=
  noTag_vseq (noTag_queryPart qd ref fp)
    (noTag_vseq (noTag_aggPart qd ref fp)
      (noTag_vseq (noTag_filtersPart qd ref fp) (noTag_groupByPart qd ref fp)))

theorem noTag_operatorPart (t : JVal) (ref fp : String) : noTag (operatorPart t ref fp) := by
  unfold operatorPart
  apply noTag_vexc
  intro b
  apply noTag_if _ (noTag_verr _ (by
    simp only [String.append_assoc]
    exact stfmTag_ra "Missing 'operator' in " _ (by decide) (by decide)))
  apply noTag_vexc
  intro op
  apply noTag_if _ (noTag_vpure true)
  apply noTag_verr
  simp only [String.append_assoc]
  exact stfmTag_ra "Invalid operator '" _ (by decide) (by decide)

theorem noTag_tiersLoop (ref fp : String) (kvs : List (String × JVal)) :
    noTag (tiersLoop ref fp kvs) := by
  induction kvs with
  | nil => exact noTag_vpure true
  | cons p rest ih =>
    obtain ⟨sev, thr⟩ := p
    apply noTag_vseq _ ih
    apply noTag_vseq
    · apply noTag_if _ (noTag_vpure true)
      apply noTag_verr
      simp only [String.append_assoc]
      exact stfmTag_ra "Invalid severity '" _ (by decide) (by decide)
    · apply noTag_if _ _ (noTag_vpure true)
      apply noTag_verr
      simp only [String.append_assoc]
      exact stfmTag_ra "Threshold for " _ (by decide) (by decide)

theorem noTag_tiersPart (t : JVal) (ref fp : String) : noTag (tiersPart t ref fp) := by
  unfold tiersPart
  apply noTag_vexc
  intro b
  apply noTag_if _ (noTag_verr _ (by
    simp only [String.append_assoc]
    exact stfmTag_ra "Missing 'severityThresholdTiers' in " _ (by decide) (by decide)))
  apply noTag_vexc
  intro tiers
  cases tiers with
  | obj tkvs => exact noTag_tiersLoop ref fp tkvs
  | null =>
    apply noTag_verr
    simp only [String.append_assoc]
    exact stfmTag_ra "'severityThresholdTiers' must be an object in " _ (by decide) (by decide)
  | bool x =>
    apply noTag_verr
    simp only [String.append_assoc]
    exact stfmTag_ra "'severityThresholdTiers' must be an object in " _ (by decide) (by decide)
  | num q =>
    apply noTag_verr
    simp only [String.append_assoc]
    exact stfmTag_ra "'severityThresholdTiers' must be an object in " _ (by decide) (by decide)
  | str s =>
    apply noTag_verr
    simp only [String.append_assoc]
    exact stfmTag_ra "'severityThresholdTiers' must be an object in " _ (by decide) (by decide)
  | arr l =>
    apply noTag_verr
    simp only [String.append_assoc]
    exact stfmTag_ra "'severityThresholdTiers' must be an object in " _ (by decide) (by decide)

theorem noTag_validateTrigger (t : JVal) (ref fp : String) :
    noTag (validateTrigger t ref fp) :=
  noTag_vseq (noTag_operatorPart t ref fp) (noTag_tiersPart t ref fp)

theorem noTag_validateSubcomponent (c : JVal) (idx : Nat) (fp : String) :
    noTag (validateSubcomponent c idx fp) := by
  unfold validateSubcomponent
  apply noTag_vseq
  · apply noTag_vexc
    intro b
    apply noTag_if _ (noTag_verr _ (by
      simp only [String.append_assoc]
      exact stfmTag_ra "Missing 'queryDefinition' in subComponents[" _ (by decide) (by decide)))
    apply noTag_vexc
    intro qd
    exact noTag_validateQueryDefinition qd _ fp
  · apply noTag_vexc
    intro b
    apply noTag_if _ (noTag_verr _ (by
      simp only [String.append_assoc]
      exact stfmTag_ra "Missing 'trigger' in subComponents[" _ (by decide) (by decide)))
    apply noTag_vexc
    intro t
    exact noTag_validateTrigger t _ fp

theorem noTag_subLoop (fp : String) (xs : List JVal) (idx : Nat) :
    noTag (subLoop fp xs idx) := by
  induction xs generalizing idx with
  | nil => exact noTag_vpure true
  | cons c cs ih => exact noTag_vseq (noTag_validateSubcomponent c idx fp) (ih (idx + 1))

theorem noTag_subsBlock (rule : JVal) (fp : String) : noTag (subsBlock rule fp) := by
  unfold subsBlock
  apply noTag_vexc
  intro b
  apply noTag_if b _ (noTag_vpure true)
  apply noTag_vexc
  intro sc
  cases sc with
  | arr xs =>
    apply noTag_if _ (noTag_verr _
      (stfmTag_ra "'subComponents' cannot be empty in " _ (by decide) (by decide)))
    exact noTag_subLoop fp xs 0
  | null =>
    exact noTag_verr _ (stfmTag_ra "'subComponents' must be a list in " _ (by decide) (by decide))
  | bool x =>
    exact noTag_verr _ (stfmTag_ra "'subComponents' must be a list in " _ (by decide) (by decide))
  | num q =>
    exact noTag_verr _ (stfmTag_ra "'subComponents' must be a list in " _ (by decide) (by decide))
  | str s =>
    exact noTag_verr _ (stfmTag_ra "'subComponents' must be a list in " _ (by decide) (by decide))
  | obj l =>
    exact noTag_verr _ (stfmTag_ra "'subComponents' must be a list in " _ (by decide) (by decide))

theorem noTag_corrOpLoop (fp : String) (xs : List JVal) : noTag (corrOpLoop fp xs) := by
  induction xs with
  | nil => exact noTag_vpure true
  | cons op rest ih =>
    apply noTag_vseq _ ih
    apply noTag_if _ (noTag_vpure true)
    apply noTag_verr
    simp only [String.append_assoc]
    exact stfmTag_ra "Invalid correlation operator '" _ (by decide) (by decide)

theorem noTag_corrOpsPart (c : JVal) (fp : String) : noTag (corrOpsPart c fp) := by
  unfold corrOpsPart
  apply noTag_vexc
  intro b
  apply noTag_if b _ (noTag_vpure true)
  apply noTag_vexc
  intro v
  cases v with
  | arr xs => exact noTag_corrOpLoop fp xs
  | null =>
    exact noTag_verr _
      (stfmTag_ra "'correlationOperators' must be a list in " _ (by decide) (by decide))
  | bool x =>
    exact noTag_verr _
      (stfmTag_ra "'correlationOperators' must be a list in " _ (by decide) (by decide))
  | num q =>
    exact noTag_verr _
      (stfmTag_ra "'correlationOperators' must be a list in " _ (by decide) (by decide))
  | str s =>
    exact noTag_verr _
      (stfmTag_ra "'correlationOperators' must be a list in " _ (by decide) (by decide))
  | obj l =>
    exact noTag_verr _
      (stfmTag_ra "'correlationOperators' must be a list in " _ (by decide) (by decide))

theorem noTag_joinsPart (c : JVal) (fp : String) : noTag (joinsPart c fp) := by
  unfold joinsPart
  apply noTag_vexc
  intro b
  apply noTag_if b _ (noTag_vpure true)
  apply noTag_vexc
  intro v
  apply noTag_if _ _ (noTag_vpure true)
  exact noTag_verr _ (stfmTag_ra "'joins' must be a list in " _ (by decide) (by decide))

theorem noTag_corrBlock (rule : JVal) (fp : String) : noTag (corrBlock rule fp) := by
  unfold corrBlock
  apply noTag_vexc
  intro b
  apply noTag_if b _ (noTag_vpure true)
  apply noTag_vexc
  intro c
  exact noTag_vseq (noTag_corrOpsPart c fp) (noTag_joinsPart c fp)

theorem noTag_tagsBlock (rule : JVal) (fp : String) : noTag (tagsBlock rule fp) := by
  unfold tagsBlock
  apply noTag_vexc
  intro b
  apply noTag_if b _ (noTag_vpure true)
  apply noTag_vexc
  intro v
  apply noTag_if _ _ (noTag_vpure true)
  exact noTag_verr _ (stfmTag_ra "'tags' must be a list in " _ (by decide) (by decide))

theorem noTag_recBlock (rule : JVal) (fp : String) : noTag (recBlock rule fp) := by
  unfold recBlock descPart tagsRecPart
  apply noTag_vseq
  · apply noTag_vexc
    intro b
    apply noTag_if _ (noTag_vwarn _)
    apply noTag_vexc
    intro v
    exact noTag_if _ (noTag_vwarn _) (noTag_vpure true)
  · apply noTag_vexc
    intro b
    apply noTag_if _ (noTag_vwarn _)
    apply noTag_vexc
    intro v
    exact noTag_if _ (noTag_vwarn _) (noTag_vpure true)

theorem noTag_roBlock (rule : JVal) (fp : String) : noTag (roBlock rule fp) := by
  unfold roBlock
  induction readonlyFields with
  | nil => exact noTag_vpure true
  | cons f fs ih =>
    apply noTag_vseq _ ih
    apply noTag_vexc
    intro b
    exact noTag_if b (noTag_vwarn _) (noTag_vpure true)

theorem mem_errsOf_vseq {m : String} {a b : VOut} (h : m ∈ errsOf (vseq a b)) :
    m ∈ errsOf a ∨ m ∈ errsOf b := by
  cases a with
  | exn e es ws => exact Or.inl h
  | ok fa =>
    cases b with
    | ok fb => exact List.mem_append.mp h
    | exn e es ws => exact List.mem_append.mp h

/-- Branch analysis of the `searchTimeFrameMinutes` block: it appends
nothing, or exactly the not-a-number error (for a value failing Python's
isinstance check), or exactly the not-positive error (for a numeric
value that is at most zero).  The `elif` in the source makes the two
findings mutually exclusive within a run. -/
theorem stfmBlock_cases (rule : JVal) (fp : String) :
    errsOf (stfmBlock rule fp) = [] ∨
    (errsOf (stfmBlock rule fp) = [msgStfmNum fp] ∧
      ∃ v, pyGetItemStr rule "searchTimeFrameMinutes" = .ok v ∧ pyIsNumber v = false) ∨
    (errsOf (stfmBlock rule fp) = [msgStfmPos fp] ∧
      ∃ v, pyGetItemStr rule "searchTimeFrameMinutes" = .ok v ∧
        pyIsNumber v = true ∧ pyNumLe0 v = true) := by
  unfold stfmBlock
  cases hx : pyInStr "searchTimeFrameMinutes" rule with
  | error e => left; simp [vexc, errsOf]
  | ok b =>
    cases b with
    | false => left; simp [vexc, vpure, errsOf]
    | true =>
      simp only [vexc, if_true]
      cases hg : pyGetItemStr rule "searchTimeFrameMinutes" with
      | error e => left; simp [vexc, errsOf]
      | ok v =>
        by_cases hn : pyIsNumber v
        · by_cases hl : pyNumLe0 v
          · right; right
            constructor
            · simp [vexc, hn, hl, verr, errsOf]
            · exact ⟨v, rfl, hn, hl⟩
          · left
            simp [vexc, hn, hl, vpure, errsOf]
        · right; left
          constructor
          · simp [vexc, hn, verr, errsOf]
          · exact ⟨v, rfl, by simp [hn]⟩

/-- Any tagged finding of a whole run comes from the
`searchTimeFrameMinutes` block: every other block's findings are
untagged. -/
theorem tagged_mem_stfm (rule : JVal) (fp : String) (m : String)
    (hm : m ∈ errsOf (validateSecurityRule rule fp)) (ht : stfmTag m = true) :
    m ∈ errsOf (stfmBlock rule fp) := by
  unfold validateSecurityRule at hm
  rcases mem_errsOf_vseq hm with h | h
  · rw [noTag_requiredBlock rule fp m h] at ht; exact absurd ht (by simp)
  rcases mem_errsOf_vseq h with h | h
  · rw [noTag_titleBlock rule fp m h] at ht; exact absurd ht (by simp)
  rcases mem_errsOf_vseq h with h | h
  · rw [noTag_enabledBlock rule fp m h] at ht; exact absurd ht (by simp)
  rcases mem_errsOf_vseq h with h | h
  · exact h
  rcases mem_errsOf_vseq h with h | h
  · rw [noTag_outputBlock rule fp m h] at ht; exact absurd ht (by simp)
  rcases mem_errsOf_vseq h with h | h
  · rw [noTag_subsBlock rule fp m h] at ht; exact absurd ht (by simp)
  rcases mem_errsOf_vseq h with h | h
  · rw [noTag_corrBlock rule fp m h] at ht; exact absurd ht (by simp)
  rcases mem_errsOf_vseq h with h | h
  · rw [noTag_tagsBlock rule fp m h] at ht; exact absurd ht (by simp)
  rcases mem_errsOf_vseq h with h | h
  · rw [noTag_recBlock rule fp m h] at ht; exact absurd ht (by simp)
  · rw [noTag_roBlock rule fp m h] at ht; exact absurd ht (by simp)

/-- C4 counterexample: no validation run ever produces both the
not-a-number and the not-positive `searchTimeFrameMinutes` errors — the
source's `elif` makes them mutually exclusive, so the claim that some
input fires both in a single run is false. -/
theorem c4_both_stfm_errors_counterexample :
    ¬ ∃ (rule : JVal) (fp : String),
      msgStfmNum fp ∈ errsOf (validateSecurityRule rule fp) ∧
      msgStfmPos fp ∈ errsOf (validateSecurityRule rule fp) := by
  rintro ⟨rule, fp, hnum, hpos⟩
  have h1 := tagged_mem_stfm rule fp _ hnum (stfmTag_msgNum fp)
  have h2 := tagged_mem_stfm rule fp _ hpos (stfmTag_msgPos fp)
  rcases stfmBlock_cases rule fp with h | ⟨h, _⟩ | ⟨h, _⟩
  · rw [h] at h1
    simp at h1
  · rw [h] at h2
    simp at h2
    exact msgStfm_ne fp h2.symm
  · rw [h] at h1
    simp at h1
    exact msgStfm_ne fp h1

/-- C4 amended: the two checks are sequential, not independent — the
not-positive error fires only when the numeric check already passed
(so the value is numeric, in Python's boolean-inclusive sense, and at
most zero), and in that run the not-a-number error is absent. -/
theorem c4_stfm_checks_amended (rule : JVal) (fp : String)
    (hpos : msgStfmPos fp ∈ errsOf (validateSecurityRule rule fp)) :
    (∃ v, pyGetItemStr rule "searchTimeFrameMinutes" = .ok v ∧
      pyIsNumber v = true ∧ pyNumLe0 v = true) ∧
    msgStfmNum fp ∉ errsOf (validateSecurityRule rule fp) := by
  have h2 := tagged_mem_stfm rule fp _ hpos (stfmTag_msgPos fp)
  rcases stfmBlock_cases rule fp with h | ⟨h, _⟩ | ⟨h, hex⟩
  · rw [h] at h2
    simp at h2
  · rw [h] at h2
    simp at h2
    exact absurd h2.symm (msgStfm_ne fp)
  · refine ⟨hex, ?_⟩
    intro hnum
    have h1 := tagged_mem_stfm rule fp _ hnum (stfmTag_msgNum fp)
    rw [h] at h1
    simp at h1
    exact msgStfm_ne fp h1

/-- C4 amended witness: a document with `searchTimeFrameMinutes = -5`
produces the not-positive error and not the not-a-number error. -/
theorem c4_stfm_checks_amended_witness :
    (∃ v, pyGetItemStr (.obj [("searchTimeFrameMinutes", .num (-5))])
        "searchTimeFrameMinutes" = .ok v ∧
      pyIsNumber v = true ∧ pyNumLe0 v = true) ∧
    msgStfmNum "rules.json" ∉
      errsOf (validateSecurityRule (.obj [("searchTimeFrameMinutes", .num (-5))])
        "rules.json") :=
  c4_stfm_checks_amended (.obj [("searchTimeFrameMinutes", .num (-5))]) "rules.json"
    (by decide)

/-! ## Deployment reconciliation (deploy_security_rules.py) -/

/-- One injected HTTP interaction: a transport failure
(`requests.exceptions.RequestException`) or a response with a status
code and a body (`none` when `response.json()` cannot parse it). -/
inductive HResp : Type where
  | transportErr (msg : String)
  | resp (status : Nat) (body : Option JVal)
deriving Repr

/-- The value of `search_rule_by_title`: the Python dict
`exists`/`rule_id`, with Python `None` as `JVal.null`. -/
structure SearchResult where
  ruleExists : Bool
  ruleId : JVal
deriving Repr

/-- The exact-match scan of `search_rule_by_title` (lines 106-117): for
each result, `rule.get('title', '')`; for the first three results the
debug print slices both titles (`[:50]`, raising on unsliceable values);
the first result comparing equal is returned with its `rule.get('id')`. -/
def scanResults (title : JVal) : List JVal → Nat → Except PyErr (Option JVal)
  | [], _ => .ok none
  | r :: rest, i =>
    match pyGetD r "title" (.str "") with
    | .error e => .error e
    | .ok t =>
      match (if i < 3 then
              match pySliceCheck t with
              | .error e => .error e
              | .ok _ => pySliceCheck title
             else .ok () : Except PyErr Unit) with
      | .error e => .error e
      | .ok _ =>
        if pyEq t title then
          match pyGetD r "id" .null with
          | .error e => .error e
          | .ok rid => .ok (some rid)
        else scanResults title rest (i + 1)

/-- The near-match diagnostic scan (lines 125-134): over the first 50
results, lower-cases both titles and tests containment either way; its
findings are only printed, so the model keeps just its raising
behaviour. -/
def similarScan (title : JVal) : List JVal → Except PyErr Unit
  | [] => .ok ()
  | r :: rest =>
    match pyGetD r "title" (.str "") with
    | .error e => .error e
    | .ok t =>
      match pyLower title with
      | .error e => .error e
      | .ok _ =>
        match pyLower t with
        | .error e => .error e
        | .ok _ => similarScan title rest

/-- The body of `search_rule_by_title`'s try-block (lines 72-162):
everything before the catch-all handlers. -/
def searchBody (title : JVal) (r : HResp) : Except PyErr SearchResult :=
  match r with
  | .transportErr _ => .ok ⟨false, .null⟩
  | .resp st body =>
    if st = 200 then
      match body with
      | none => .error (.valueError "Expecting value: line 1 column 1 (char 0)")
      | some d =>
        match d with
        | .obj kvs =>
          if hasKeyL "results" kvs then
            match alookup "results" kvs with
            | some results =>
              if pyTruthy results then
                match pyLen results with
                | .error e => .error e
                | .ok n =>
                  if 0 < n then
                    match results with
                    | .arr l =>
                      match scanResults title l 0 with
                      | .error e => .error e
                      | .ok (some rid) => .ok ⟨true, rid⟩
                      | .ok none =>
                        match similarScan title (l.take 50) with
                        | .error e => .error e
                        | .ok _ => .ok ⟨false, .null⟩
                    | .str _ => .error (.attributeError "'str' object has no attribute 'get'")
                    | .obj _ => .error (.attributeError "'str' object has no attribute 'get'")
                    | _ => .ok ⟨false, .null⟩
                  else .ok ⟨false, .null⟩
              else .ok ⟨false, .null⟩
            | none => .ok ⟨false, .null⟩
          else .ok ⟨false, .null⟩
        | _ => .ok ⟨false, .null⟩
    else .ok ⟨false, .null⟩

/-- `SecurityRuleDeployer.search_rule_by_title` (lines 60-171): the
try-body with both exception handlers returning `exists=False`. -/
def searchRuleByTitle (title : JVal) (r : HResp) : SearchResult :=
  match searchBody title r with
  | .ok res => res
  | .error _ => ⟨false, .null⟩

/-- The generic no-message fallback string of the error-message lookup. -/
def noMsgDefault : String := "No error message provided"

/-- `a or b` on an optional looked-up value: the value when present and
truthy, the fallback otherwise. -/
def orTruthy (a : Option JVal) (b : JVal) : JVal :=
  match a with
  | some v => if pyTruthy v then v else b
  | none => b

/-- `error_data.get('message') or error_data.get('error') or
error_data.get('errorMessage') or 'No error message provided'`. -/
def pickErrMsg (kvs : List (String × JVal)) : JVal :=
  orTruthy (alookup "message" kvs)
    (orTruthy (alookup "error" kvs)
      (orTruthy (alookup "errorMessage" kvs) (.str noMsgDefault)))

/-- `SecurityRuleDeployer._update_rule` (lines 223-275): one PUT; 2xx
succeeds with the known id, otherwise the body is parsed for a message
(any parse/access failure falls back to the HTTP-status message). -/
def updateRule (ruleId : JVal) (r : HResp) : Bool × String :=
  match r with
  | .transportErr m => (false, "Update request failed: " ++ m)
  | .resp st body =>
    if 200 ≤ st ∧ st < 300 then
      (true, "Updated successfully (ID: " ++ pyStr ruleId ++ ")")
    else
      match body with
      | some (.obj kvs) => (false, "Update failed: " ++ pyStr (pickErrMsg kvs))
      | _ => (false, "Update failed with HTTP " ++ toString st)

/-- The success message of `_create_rule`: with the body's `id` (default
`'unknown'`) when the body parses to a mapping, plain otherwise (the
`result.get` raise is swallowed by the inner try). -/
def createdMsg (ep : String) (body : Option JVal) : String :=
  match body with
  | some (.obj kvs) =>
      "Created successfully at " ++ ep ++ " (ID: " ++
        pyStr ((alookup "id" kvs).getD (.str "unknown")) ++ ")"
  | _ => "Created successfully at " ++ ep

/-- Whether a response is a 2xx success. -/
def is2xx : HResp → Bool
  | .resp st _ => decide (200 ≤ st) && decide (st < 300)
  | .transportErr _ => false

/-- `SecurityRuleDeployer._create_rule` (lines 277-356): POST each
candidate endpoint in order; stop at the first 2xx; 400, 404, any other
status and transport failures all continue; when every candidate is
exhausted the outcome is the fixed failure message.  The second
component records the endpoints actually invoked, in order. -/
def tryCreate : List (String × HResp) → (Bool × String) × List String
  | [] => ((false, "Failed to create at any endpoint"), [])
  | (ep, r) :: rest =>
    match r with
    | .transportErr _ =>
      let res := tryCreate rest
      (res.1, ep :: res.2)
    | .resp st body =>
      if 200 ≤ st ∧ st < 300 then ((true, createdMsg ep body), [ep])
      else
        let res := tryCreate rest
        (res.1, ep :: res.2)

/-- A remote write issued by `deploy_rule`. -/
inductive WriteCall : Type where
  | update (target : String)
  | create (endpoint : String)
deriving Repr, DecidableEq

/-- `SecurityRuleDeployer.deploy_rule` (lines 173-221) with the file
loading abstracted into the already-parsed document: read the title
(default: the file stem), clean, search, then either one update with the
found id or the create fallback.  Besides the outcome it returns the
write calls issued. -/
def deployRule (ruleData : JVal) (ruleName : String) (searchResp updResp : HResp)
    (creates : List (String × HResp)) : (Bool × String) × List WriteCall :=
  match pyGetD ruleData "title" (.str ruleName) with
  | .error e =>
      ((false, "Unexpected error processing " ++ ruleName ++ ": " ++ pyErrMsg e), [])
  | .ok title =>
    match cleanRuleJson ruleData with
    | .error e =>
        ((false, "Unexpected error processing " ++ ruleName ++ ": " ++ pyErrMsg e), [])
    | .ok _ =>
      let sr := searchRuleByTitle title searchResp
      if sr.ruleExists then
        (updateRule sr.ruleId updResp, [.update (pyStr sr.ruleId)])
      else
        let res := tryCreate creates
        (res.1, res.2.map WriteCall.create)

/-- The aggregate of `deploy_all_rules`. -/
structure DeploySummary where
  total : Nat
  successful : Nat
  failed : Nat
  created : Nat
  updated : Nat
  failedRules : List (String × String)
deriving Repr, DecidableEq

/-- One loop iteration of `deploy_all_rules` (lines 407-423). -/
def summaryStep (acc : DeploySummary) (item : String × Bool × String) : DeploySummary :=
  match item with
  | (file, success, message) =>
    if success then
      if strIn "Updated" message || strIn "updated" message then
        { acc with successful := acc.successful + 1, updated := acc.updated + 1 }
      else
        { acc with successful := acc.successful + 1, created := acc.created + 1 }
    else
      { acc with failed := acc.failed + 1,
                 failedRules := acc.failedRules ++ [(file, message)] }

/-- `SecurityRuleDeployer.deploy_all_rules` (lines 358-425), with the
per-file outcomes injected: a missing directory or an empty file list
short-circuits to the all-zero summary, otherwise the loop accumulates
over the outcomes with `total` fixed up front. -/
def deployAllRules (dirExists : Bool) (outcomes : List (String × Bool × String)) :
    DeploySummary :=
  if !dirExists then ⟨0, 0, 0, 0, 0, []⟩
  else if outcomes.isEmpty then ⟨0, 0, 0, 0, 0, []⟩
  else outcomes.foldl summaryStep ⟨outcomes.length, 0, 0, 0, 0, []⟩

/-! ### C10: batch summary invariants -/

theorem summaryStep_inv (acc : DeploySummary) (item : String × Bool × String) :
    (summaryStep acc item).total = acc.total ∧
    (summaryStep acc item).successful + (summaryStep acc item).failed
      = acc.successful + acc.failed + 1 ∧
    ((summaryStep acc item).successful = (summaryStep acc item).created +
        (summaryStep acc item).updated ↔
      acc.successful = acc.created + acc.updated) ∧
    ((summaryStep acc item).failedRules.length = (summaryStep acc item).failed ↔
      acc.failedRules.length = acc.failed) := by
  obtain ⟨file, success, message⟩ := item
  cases success with
  | true =>
    by_cases hu : (strIn "Updated" message || strIn "updated" message) = true
    · simp [summaryStep, hu]
      omega
    · simp [summaryStep, hu]
      omega
  | false =>
    simp [summaryStep]
    omega

theorem foldl_summary_inv (outs : List (String × Bool × String)) :
    ∀ acc : DeploySummary,
      acc.successful = acc.created + acc.updated →
      acc.failedRules.length = acc.failed →
      (outs.foldl summaryStep acc).total = acc.total ∧
      (outs.foldl summaryStep acc).successful + (outs.foldl summaryStep acc).failed
        = acc.successful + acc.failed + outs.length ∧
      (outs.foldl summaryStep acc).successful
        = (outs.foldl summaryStep acc).created + (outs.foldl summaryStep acc).updated ∧
      (outs.foldl summaryStep acc).failedRules.length = (outs.foldl summaryStep acc).failed := by
  induction outs with
  | nil =>
    intro acc h1 h2
    exact ⟨rfl, by simp, h1, h2⟩
  | cons item rest ih =>
    intro acc h1 h2
    obtain ⟨ht, hsf, hcu, hfr⟩ := summaryStep_inv acc item
    obtain ⟨iht, ihsf, ihcu, ihfr⟩ := ih (summaryStep acc item) (hcu.mpr h1) (hfr.mpr h2)
    refine ⟨by rw [List.foldl_cons, iht, ht], ?_, ihcu, ihfr⟩
    rw [List.foldl_cons, ihsf, hsf]
    simp
    omega

/-- C10: for every directory state and every sequence of per-document
outcomes, the batch summary satisfies total = successful + failed,
successful = created + updated, and the failed-rules detail list has
exactly `failed` entries. -/
theorem c10_summary_invariants (dirExists : Bool)
    (outcomes : List (String × Bool × String)) :
    (deployAllRules dirExists outcomes).total =
      (deployAllRules dirExists outcomes).successful +
        (deployAllRules dirExists outcomes).failed ∧
    (deployAllRules dirExists outcomes).successful =
      (deployAllRules dirExists outcomes).created +
        (deployAllRules dirExists outcomes).updated ∧
    (deployAllRules dirExists outcomes).failedRules.length =
      (deployAllRules dirExists outcomes).failed := by
  unfold deployAllRules
  cases dirExists with
  | false => exact ⟨rfl, rfl, rfl⟩
  | true =>
    by_cases he : outcomes.isEmpty = true
    · simp [he]
    · simp only [Bool.not_true, Bool.false_eq_true, if_false, he]
      obtain ⟨ht, hsf, hcu, hfr⟩ := foldl_summary_inv outcomes
        ⟨outcomes.length, 0, 0, 0, 0, []⟩ rfl rfl
      refine ⟨?_, hcu, hfr⟩
      rw [ht, hsf]
      simp

/-! ### C6: create fallback order -/

/-- C6 counterexample: at the first 2xx endpoint whose body is not a
parseable mapping, the CREATED outcome records no id at all — not the
claimed `"unknown"` (the `result.get('id', 'unknown')` path is skipped
when `response.json()` raises). -/
theorem c6_create_fallback_counterexample :
    tryCreate [("ep1", .resp 201 none)] =
      ((true, "Created successfully at ep1"), ["ep1"]) ∧
    ("Created successfully at ep1" : String) ≠
      "Created successfully at ep1 (ID: unknown)" :=
  ⟨rfl, by decide⟩

/-- C6 amended: creation tries the candidates strictly in order; at the
first 2xx it stops with a CREATED outcome — recording the body's `id`
(default "unknown") when the body parses to a mapping, and no id
annotation otherwise — having invoked exactly the endpoints up to that
point; on 404, any other non-2xx and transport failure it continues; it
fails only after every candidate was tried without a 2xx, having invoked
them all. -/
theorem c6_create_fallback_amended :
    (∀ (pre : List (String × HResp)) (ep : String) (st : Nat) (body : Option JVal)
        (post : List (String × HResp)),
      (∀ p ∈ pre, is2xx p.2 = false) → 200 ≤ st → st < 300 →
      tryCreate (pre ++ (ep, .resp st body) :: post) =
        ((true, createdMsg ep body), pre.map Prod.fst ++ [ep])) ∧
    (∀ attempts : List (String × HResp),
      (∀ p ∈ attempts, is2xx p.2 = false) →
      tryCreate attempts =
        ((false, "Failed to create at any endpoint"), attempts.map Prod.fst)) := by
  constructor
  · intro pre ep st body post hpre h1 h2
    induction pre with
    | nil =>
      simp only [List.nil_append, tryCreate]
      rw [if_pos ⟨h1, h2⟩]
      rfl
    | cons p rest ih =>
      obtain ⟨e, r⟩ := p
      have hr : is2xx r = false := hpre (e, r) (List.mem_cons_self _ _)
      have hrest : ∀ q ∈ rest, is2xx q.2 = false :=
        fun q hq => hpre q (List.mem_cons_of_mem _ hq)
      cases r with
      | transportErr m =>
        simp only [List.cons_append, tryCreate]
        rw [show rest.append ((ep, HResp.resp st body) :: post) =
              rest ++ (ep, HResp.resp st body) :: post from rfl, ih hrest]
        simp
      | resp st' body' =>
        have hcond : ¬(200 ≤ st' ∧ st' < 300) := by
          intro ⟨a, b⟩
          rcases Bool.and_eq_false_iff.mp hr with h | h
          · exact absurd a (by simpa using h)
          · exact absurd b (by simpa using h)
        simp only [List.cons_append, tryCreate]
        rw [if_neg hcond,
            show rest.append ((ep, HResp.resp st body) :: post) =
              rest ++ (ep, HResp.resp st body) :: post from rfl, ih hrest]
        simp
  · intro attempts h
    induction attempts with
    | nil => rfl
    | cons p rest ih =>
      obtain ⟨e, r⟩ := p
      have hr : is2xx r = false := h (e, r) (List.mem_cons_self _ _)
      have hrest : ∀ q ∈ rest, is2xx q.2 = false :=
        fun q hq => h q (List.mem_cons_of_mem _ hq)
      cases r with
      | transportErr m =>
        simp only [tryCreate]
        rw [ih hrest]
        simp
      | resp st' body' =>
        have hcond : ¬(200 ≤ st' ∧ st' < 300) := by
          intro ⟨a, b⟩
          rcases Bool.and_eq_false_iff.mp hr with h' | h'
          · exact absurd a (by simpa using h')
          · exact absurd b (by simpa using h')
        simp only [tryCreate]
        rw [if_neg hcond, ih hrest]
        simp

/-- C6 amended witness: the spec's Scenario D (404, then 400, then 2xx
with an id) and an all-failing run. -/
theorem c6_create_fallback_amended_witness :
    tryCreate [("e1", .resp 404 none),
               ("e2", .resp 400 (some (.obj [("message", .str "bad")]))),
               ("e3", .resp 200 (some (.obj [("id", .str "r-99")])))] =
      ((true, "Created successfully at e3 (ID: r-99)"), ["e1", "e2", "e3"]) ∧
    tryCreate [("e1", .resp 400 none), ("e2", .transportErr "timeout")] =
      ((false, "Failed to create at any endpoint"), ["e1", "e2"]) := by
  constructor
  · have h := c6_create_fallback_amended.1
      [("e1", .resp 404 none), ("e2", .resp 400 (some (.obj [("message", .str "bad")])))]
      "e3" 200 (some (.obj [("id", .str "r-99")])) []
      (by decide) (by decide) (by decide)
    simpa using h
  · have h := c6_create_fallback_amended.2
      [("e1", .resp 400 none), ("e2", .transportErr "timeout")] (by decide)
    simpa using h

/-! ### C7: update path -/

/-- The ranked candidate keys for a human-readable error message,
consulted in order; a key whose value is absent or falsy is skipped. -/
def rankedFirstTruthy (keys : List String) (kvs : List (String × JVal))
    (default : JVal) : JVal :=
  match keys with
  | [] => default
  | k :: ks =>
    match alookup k kvs with
    | some v => if pyTruthy v then v else rankedFirstTruthy ks kvs default
    | none => rankedFirstTruthy ks kvs default

/-- C7 counterexample: on a non-2xx update whose body holds a present
but empty `message` key and a non-empty `error` key, the message is not
taken from `message` — the truthiness-based `or` chain skips the present
key and uses `error`. -/
theorem c7_update_message_counterexample :
    updateRule (.str "r-1")
      (.resp 400 (some (.obj [("message", .str ""), ("error", .str "boom")]))) =
      (false, "Update failed: boom") ∧
    ("Update failed: boom" : String) ≠ "Update failed: " :=
  ⟨rfl, by decide⟩

/-- C7 amended: with an existing rule found (exists = true with a known
remote id), reconciliation issues exactly one update call and no create
call, with no retry or fallback; 2xx reports the known id; a non-2xx
whose body parses to a mapping takes its message from `message`,
`error`, `errorMessage` in that priority order, skipping keys whose
value is absent or falsy, with a generic no-message default; a non-2xx
whose body is not a parseable mapping reports the HTTP status; a
transport failure reports the request error. -/
theorem c7_update_once_amended :
    (∀ (ruleData : JVal) (ruleName : String) (searchResp updResp : HResp)
        (creates : List (String × HResp)) (title cleaned rid : JVal),
      pyGetD ruleData "title" (.str ruleName) = .ok title →
      cleanRuleJson ruleData = .ok cleaned →
      searchRuleByTitle title searchResp = ⟨true, rid⟩ →
      deployRule ruleData ruleName searchResp updResp creates =
        (updateRule rid updResp, [.update (pyStr rid)])) ∧
    (∀ (rid : JVal) (m : String),
      updateRule rid (.transportErr m) = (false, "Update request failed: " ++ m)) ∧
    (∀ (rid : JVal) (st : Nat) (body : Option JVal), 200 ≤ st → st < 300 →
      updateRule rid (.resp st body) =
        (true, "Updated successfully (ID: " ++ pyStr rid ++ ")")) ∧
    (∀ (rid : JVal) (st : Nat) (kvs : List (String × JVal)), ¬(200 ≤ st ∧ st < 300) →
      updateRule rid (.resp st (some (.obj kvs))) =
        (false, "Update failed: " ++
          pyStr (rankedFirstTruthy ["message", "error", "errorMessage"] kvs
            (.str noMsgDefault)))) ∧
    (∀ (rid : JVal) (st : Nat), ¬(200 ≤ st ∧ st < 300) →
      updateRule rid (.resp st none) =
        (false, "Update failed with HTTP " ++ toString st)) := by
  refine ⟨?_, ?_, ?_, ?_, ?_⟩
  · intro ruleData ruleName searchResp updResp creates title cleaned rid ht hc hs
    simp only [deployRule]
    rw [ht, hc]
    simp [hs]
  · intro rid m
    rfl
  · intro rid st body h1 h2
    simp only [updateRule]
    rw [if_pos ⟨h1, h2⟩]
  · intro rid st kvs h
    have hmsg : pickErrMsg kvs =
        rankedFirstTruthy ["message", "error", "errorMessage"] kvs (.str noMsgDefault) := by
      cases h1 : alookup "message" kvs <;>
        cases h2 : alookup "error" kvs <;>
        cases h3 : alookup "errorMessage" kvs <;>
        simp [pickErrMsg, orTruthy, rankedFirstTruthy, h1, h2, h3]
    simp only [updateRule]
    rw [if_neg h]
    simp [hmsg]
  · intro rid st h
    simp only [updateRule]
    rw [if_neg h]

/-- C7 amended witness: a concrete update path (spec Scenario C):
title found with id r-42, one update call, 2xx outcome with that id. -/
theorem c7_update_once_amended_witness :
    deployRule (.obj [("title", .str "Alert X")]) "rule1"
      (.resp 200 (some (.obj [("results",
        .arr [.obj [("title", .str "Alert X"), ("id", .str "r-42")]])])))
      (.resp 200 none) [] =
      (updateRule (.str "r-42") (.resp 200 none), [.update "r-42"]) ∧
    updateRule (.str "r-42") (.resp 400
        (some (.obj [("errorMessage", .str "nope")]))) =
      (false, "Update failed: " ++
        pyStr (rankedFirstTruthy ["message", "error", "errorMessage"]
          [("errorMessage", .str "nope")] (.str noMsgDefault))) := by
  constructor
  · have h := c7_update_once_amended.1 (.obj [("title", .str "Alert X")]) "rule1"
      (.resp 200 (some (.obj [("results",
        .arr [.obj [("title", .str "Alert X"), ("id", .str "r-42")]])])))
      (.resp 200 none) [] (.str "Alert X") (.obj [("title", .str "Alert X")])
      (.str "r-42") rfl rfl rfl
    simpa using h
  · exact c7_update_once_amended.2.2.2.1 (.str "r-42") 400
      [("errorMessage", .str "nope")] (by decide)
/-! ### C5: search by title -/

/-- The title the scan reads from a remote rule: `rule.get('title', '')`. -/
def titleOf (x : JVal) : JVal := (objLookup "title" x).getD (.str "")

/-- A well-shaped remote rule as §6 describes the search results: a
mapping whose title, read with the empty-string default, is text. -/
def wfRule (x : JVal) : Bool := x.isObj && (titleOf x).isStr

/-- The first rule in scan order whose title equals the queried title
exactly and case-sensitively. -/
def firstTitleMatch (title : String) : List JVal → Option JVal
  | [] => none
  | x :: xs =>
    match titleOf x with
    | .str s => if s = title then some x else firstTitleMatch title xs
    | _ => firstTitleMatch title xs

theorem wfRule_elim (y : JVal) (h : wfRule y = true) :
    ∃ okvs s, y = .obj okvs ∧ (alookup "title" okvs).getD (.str "") = .str s := by
  cases y with
  | obj okvs =>
    simp only [wfRule, JVal.isObj, Bool.true_and] at h
    cases hv : (alookup "title" okvs).getD (.str "") with
    | str s => exact ⟨okvs, s, rfl, hv⟩
    | null => rw [titleOf, objLookup, hv] at h; simp [JVal.isStr] at h
    | bool b => rw [titleOf, objLookup, hv] at h; simp [JVal.isStr] at h
    | num q => rw [titleOf, objLookup, hv] at h; simp [JVal.isStr] at h
    | arr l => rw [titleOf, objLookup, hv] at h; simp [JVal.isStr] at h
    | obj l => rw [titleOf, objLookup, hv] at h; simp [JVal.isStr] at h
  | null => simp [wfRule, JVal.isObj] at h
  | bool b => simp [wfRule, JVal.isObj] at h
  | num q => simp [wfRule, JVal.isObj] at h
  | str s => simp [wfRule, JVal.isObj] at h
  | arr l => simp [wfRule, JVal.isObj] at h

theorem pyGetD_obj (kvs : List (String × JVal)) (k : String) (d : JVal) :
    pyGetD (.obj kvs) k d = .ok ((alookup k kvs).getD d) := rfl

/-- Over well-shaped results the exact-match scan never raises and finds
precisely the first exact title match, returning its `id` (Python None,
i.e. null, when absent). -/
theorem scanResults_wf (title : String) (l : List JVal) (i : Nat)
    (hwf : ∀ y ∈ l, wfRule y = true) :
    scanResults (.str title) l i =
      .ok ((firstTitleMatch title l).map (fun x => (objLookup "id" x).getD .null)) := by
  induction l generalizing i with
  | nil => rfl
  | cons r rest ih =>
    obtain ⟨okvs, s, rfl, hts⟩ := wfRule_elim r (hwf r (List.mem_cons_self _ _))
    have hrest : ∀ y ∈ rest, wfRule y = true :=
      fun y hy => hwf y (List.mem_cons_of_mem _ hy)
    have hslice : (if i < 3 then
        match pySliceCheck ((alookup "title" okvs).getD (.str "")) with
        | .error e => .error e
        | .ok _ => pySliceCheck (.str title)
       else .ok () : Except PyErr Unit) = .ok () := by
      by_cases hi : i < 3
      · rw [if_pos hi, hts]
        rfl
      · rw [if_neg hi]
    simp only [scanResults, pyGetD_obj, hslice]
    rw [hts]
    simp only [firstTitleMatch, titleOf, objLookup, hts]
    by_cases heq : s = title
    · subst heq
      simp [pyEq, pyGetD_obj, objLookup]
    · have hne : pyEq (.str s) (.str title) = false := by
        simp [pyEq, heq]
      rw [hne]
      simp only [Bool.false_eq_true, if_false, if_neg heq]
      exact ih (i + 1) hrest

/-- Over well-shaped results the near-match diagnostic scan never
raises. -/
theorem similarScan_wf (title : String) (l : List JVal)
    (hwf : ∀ y ∈ l, wfRule y = true) :
    similarScan (.str title) l = .ok () := by
  induction l with
  | nil => rfl
  | cons r rest ih =>
    obtain ⟨okvs, s, rfl, hts⟩ := wfRule_elim r (hwf r (List.mem_cons_self _ _))
    have hrest : ∀ y ∈ rest, wfRule y = true :=
      fun y hy => hwf y (List.mem_cons_of_mem _ hy)
    simp only [similarScan, pyGetD_obj, hts]
    rw [show pyLower (.str title) = .ok title.toLower from rfl,
        show pyLower (.str s) = .ok s.toLower from rfl]
    exact ih hrest

/-- C5. Counterexample to the universally quantified claim: a 200
response whose results hold an exact title match at position two is
answered with exists=false, because the debug print for the first three
scanned results slices the first result's non-text title (`rule_title[:50]`,
line 111), the TypeError reaches the catch-all handler, and the handler
returns the not-found value - the genuine match is never reached. -/
theorem c5_search_counterexample :
    firstTitleMatch "Alert X"
        [JVal.obj [("title", JVal.num 5)],
         JVal.obj [("title", JVal.str "Alert X"), ("id", JVal.str "r-1")]] =
      some (JVal.obj [("title", JVal.str "Alert X"), ("id", JVal.str "r-1")]) ∧
    (searchRuleByTitle (.str "Alert X")
        (.resp 200 (some (.obj [("results",
          .arr [JVal.obj [("title", JVal.num 5)],
                JVal.obj [("title", JVal.str "Alert X"),
                          ("id", JVal.str "r-1")]])])))).ruleExists = false ∧
    (searchRuleByTitle (.str "Alert X")
        (.resp 200 (some (.obj [("results",
          .arr [JVal.obj [("title", JVal.num 5)],
                JVal.obj [("title", JVal.str "Alert X"),
                          ("id", JVal.str "r-1")]])])))).ruleId = .null :=
  ⟨rfl, rfl, rfl⟩

/-- C5 (amended). For a 200 response carrying a results sequence of
well-shaped rules (mappings whose title, with the empty-string default,
is text), the search returns exists=true with the id of the first exact,
case-sensitive title match in scan order when one exists - the
near-match diagnostic scan, which runs only on the no-match path, never
changes the value - and exists=false with a null rule id when none does;
on a transport failure, a non-200 status, an unparseable 200 body, a
body without a results key, or a results value that is not a sequence,
it returns exists=false with a null rule id. -/
theorem c5_search_by_title_amended :
    (∀ title l kvs x,
      alookup "results" kvs = some (.arr l) →
      (∀ y ∈ l, wfRule y = true) →
      firstTitleMatch title l = some x →
      searchRuleByTitle (.str title) (.resp 200 (some (.obj kvs))) =
        ⟨true, (objLookup "id" x).getD .null⟩) ∧
    (∀ title l kvs,
      alookup "results" kvs = some (.arr l) →
      (∀ y ∈ l, wfRule y = true) →
      firstTitleMatch title l = none →
      searchRuleByTitle (.str title) (.resp 200 (some (.obj kvs))) =
        ⟨false, .null⟩) ∧
    (∀ title msg, searchRuleByTitle title (.transportErr msg) = ⟨false, .null⟩) ∧
    (∀ title st body, st ≠ 200 →
      searchRuleByTitle title (.resp st body) = ⟨false, .null⟩) ∧
    (∀ title, searchRuleByTitle title (.resp 200 none) = ⟨false, .null⟩) ∧
    (∀ title d, objLookup "results" d = none →
      searchRuleByTitle title (.resp 200 (some d)) = ⟨false, .null⟩) ∧
    (∀ title kvs v, alookup "results" kvs = some v → v.isArr = false →
      searchRuleByTitle (.str title) (.resp 200 (some (.obj kvs))) =
        ⟨false, .null⟩) := by
  refine ⟨?_, ?_, ?_, ?_, ?_, ?_, ?_⟩
  · intro title l kvs x hres hwf hmatch
    have hne : l ≠ [] := by
      rintro rfl
      simp [firstTitleMatch] at hmatch
    have hscan := scanResults_wf title l 0 hwf
    rw [hmatch] at hscan
    have hk : hasKeyL "results" kvs = true := by simp [hasKeyL, hres]
    have htr : pyTruthy (.arr l) = true := by
      cases l with
      | nil => exact absurd rfl hne
      | cons a as => rfl
    have hlen : 0 < l.length := List.length_pos.mpr hne
    simp [searchRuleByTitle, searchBody, hk, hres, htr, pyLen, hlen, hscan]
  · intro title l kvs hres hwf hnone
    have hscan := scanResults_wf title l 0 hwf
    rw [hnone] at hscan
    have hk : hasKeyL "results" kvs = true := by simp [hasKeyL, hres]
    have hsim := similarScan_wf title (l.take 50)
      (fun y hy => hwf y (List.take_subset 50 l hy))
    by_cases hne : l = []
    · subst hne
      simp [searchRuleByTitle, searchBody, hk, hres, pyTruthy]
    · have htr : pyTruthy (.arr l) = true := by
        cases l with
        | nil => exact absurd rfl hne
        | cons a as => rfl
      have hlen : 0 < l.length := List.length_pos.mpr hne
      simp [searchRuleByTitle, searchBody, hk, hres, htr, pyLen, hlen, hscan, hsim]
  · intro title msg
    rfl
  · intro title st body hst
    simp [searchRuleByTitle, searchBody, hst]
  · intro title
    rfl
  · intro title d hres
    cases d with
    | obj kvs =>
      have hk : hasKeyL "results" kvs = false := by
        simp only [objLookup] at hres
        simp [hasKeyL, hres]
      simp [searchRuleByTitle, searchBody, hk]
    | null => rfl
    | bool b => rfl
    | num q => rfl
    | str s => rfl
    | arr xs => rfl
  · intro title kvs v hres hnarr
    have hk : hasKeyL "results" kvs = true := by simp [hasKeyL, hres]
    cases v with
    | arr xs => simp [JVal.isArr] at hnarr
    | null => simp [searchRuleByTitle, searchBody, hk, hres, pyTruthy]
    | bool b =>
      by_cases hb : b = true
      · subst hb
        simp [searchRuleByTitle, searchBody, hk, hres, pyTruthy, pyLen]
      · have hb' : b = false := by cases b; rfl; exact absurd rfl hb
        subst hb'
        simp [searchRuleByTitle, searchBody, hk, hres, pyTruthy]
    | num q =>
      by_cases hq : q = 0
      · subst hq
        simp [searchRuleByTitle, searchBody, hk, hres, pyTruthy]
      · have htr : pyTruthy (.num q) = true := by simp [pyTruthy, hq]
        simp [searchRuleByTitle, searchBody, hk, hres, htr, pyLen]
    | str s =>
      by_cases hs : s = ""
      · subst hs
        simp [searchRuleByTitle, searchBody, hk, hres, pyTruthy]
      · have htr : pyTruthy (.str s) = true := by simp [pyTruthy, hs]
        have hlen : 0 < s.length := by
          cases hsd : s.data with
          | nil =>
            exact absurd (by cases s; simp at hsd; simp [hsd]) hs
          | cons c cs =>
            show 0 < s.data.length
            rw [hsd]
            simp
        by_cases hl : 0 < s.length
        · simp [searchRuleByTitle, searchBody, hk, hres, htr, pyLen, hl]
        · exact absurd hlen hl
    | obj okvs =>
      by_cases ho : okvs = []
      · subst ho
        simp [searchRuleByTitle, searchBody, hk, hres, pyTruthy]
      · have htr : pyTruthy (.obj okvs) = true := by
          cases okvs with
          | nil => exact absurd rfl ho
          | cons a as => rfl
        have hlen : 0 < okvs.length := List.length_pos.mpr ho
        simp [searchRuleByTitle, searchBody, hk, hres, htr, pyLen, hlen]

/-- C5 witness: the amended first-match guarantee at a concrete 200
response whose second well-shaped result is the exact match. -/
theorem c5_search_by_title_amended_witness :
    searchRuleByTitle (.str "Alert X")
        (.resp 200 (some (.obj [("results",
          .arr [JVal.obj [("title", JVal.str "Other"), ("id", JVal.str "r-1")],
                JVal.obj [("title", JVal.str "Alert X"),
                          ("id", JVal.str "r-42")]])]))) =
      ⟨true, .str "r-42"⟩ :=
  c5_search_by_title_amended.1 "Alert X"
    [JVal.obj [("title", JVal.str "Other"), ("id", JVal.str "r-1")],
     JVal.obj [("title", JVal.str "Alert X"), ("id", JVal.str "r-42")]]
    [("results",
      .arr [JVal.obj [("title", JVal.str "Other"), ("id", JVal.str "r-1")],
            JVal.obj [("title", JVal.str "Alert X"), ("id", JVal.str "r-42")]])]
    (JVal.obj [("title", JVal.str "Alert X"), ("id", JVal.str "r-42")])
    rfl
    (by
      intro y hy
      rcases List.mem_cons.mp hy with rfl | hy
      · rfl
      · rcases List.mem_cons.mp hy with rfl | hy
        · rfl
        · cases hy)
    rfl
